import Mathlib

/-!
# The scull control device: task registry and ioctl dispatcher

A shallow embedding of `driver/scull.c`.  The two globals of the module, the
linked list `task_list` and the integer `scull_quantum`, form the state
`Device`; each entry point of the driver is a function on that state.

Calls are taken one at a time, each run to completion: the mutex does that for
the task list, and interleavings of concurrent calls on `scull_quantum` are
outside this embedding.  What the rest of the kernel answers during one call
(`access_ok`, `kmalloc`, the user-copy primitives) is an input of the call,
the record `Kernel`; the calling task is `current`.

The header `scull.h` is not among the sources.  Its constants are the
parameter `scull_h` of the dispatcher.

The command-line program `src/scull.c` is embedded from the point where its
arguments are parsed: `do_op` and `main` are functions of the command letter
and of what the system calls answer, the record `System`.
-/

namespace Scull

/-! ## Machine integers and kernel constants -/

/-- The C `int` (32 bits, two's complement) that a conversion of `z` yields.
The kernel is built with wrapping signed arithmetic, so `int` increments use
it as well. -/
def to_int (z : Int) : Int := (2147483648 + z) % 4294967296 - 2147483648

/-- Errno `ENOTTY`, inappropriate ioctl. -/
def ENOTTY : Int := 25

/-- Errno `EFAULT`, bad address. -/
def EFAULT : Int := 14

/-- Macro `_IOC_NR` of the kernel's ioctl encoding: bits 0..7. -/
def _IOC_NR (cmd : Nat) : Nat := (cmd >>> 0) &&& 255

/-- Macro `_IOC_TYPE` of the kernel's ioctl encoding: bits 8..15. -/
def _IOC_TYPE (cmd : Nat) : Nat := (cmd >>> 8) &&& 255

/-- Macro `_IOC_SIZE` of the kernel's ioctl encoding: bits 16..29. -/
def _IOC_SIZE (cmd : Nat) : Nat := (cmd >>> 16) &&& 16383

/-! ## The header `scull.h` -/

/-- The constants the driver takes from `scull.h`: the family tag, the highest
command number, the default quantum and the eight command codes. -/
structure scull_h where
  SCULL_IOC_MAGIC : Nat
  SCULL_IOC_MAXNR : Nat
  SCULL_QUANTUM : Int
  SCULL_IOCRESET : Nat
  SCULL_IOCSQUANTUM : Nat
  SCULL_IOCTQUANTUM : Nat
  SCULL_IOCGQUANTUM : Nat
  SCULL_IOCQQUANTUM : Nat
  SCULL_IOCXQUANTUM : Nat
  SCULL_IOCHQUANTUM : Nat
  SCULL_IOCIQUANTUM : Nat

/-- Modelled from the spec: `struct task_info` of `scull.h`, the CallerInfo
transfer structure of section 6. -/
structure task_info where
  __state : Nat
  cpu : Nat
  prio : Int
  pid : Int
  tgid : Int
  nvcsw : Nat
  nivcsw : Nat
deriving DecidableEq, Repr

/-- Modelled from the spec: `sizeof(struct task_info)` for the layout of
section 6 on a 64-bit kernel (five 4-byte fields, padding, two 8-byte fields).
It only bounds how many bytes `copy_to_user` can leave uncopied. -/
def sizeof_task_info : Nat := 40

/-! ## State -/

/-- One `struct task_node`; the `list` member is the position in `task_list`. -/
structure task_node where
  pid : Int
  tgid : Int
deriving DecidableEq, Repr

/-- The module's globals `task_list` and `scull_quantum`. -/
structure Device where
  task_list : List task_node
  scull_quantum : Int
deriving DecidableEq, Repr

/-- The fields of `current` that the driver reads (`cpu` is `task_cpu(current)`). -/
structure task_struct where
  flags : Nat
  cpu : Nat
  prio : Int
  pid : Int
  tgid : Int
  nvcsw : Nat
  nivcsw : Nat
deriving DecidableEq, Repr

/-- What the kernel answers during one call of an entry point. -/
structure Kernel where
  /-- Answer of `access_ok(addr, size)`. -/
  access_ok : Nat → Nat → Bool
  /-- Whether `kmalloc` returns a node. -/
  kmalloc : Bool
  /-- How many bytes `copy_to_user` fails to copy, before the bound by the
  requested length. -/
  uncopied : Nat
  /-- The `int` that `__get_user` reads at the user address, `none` on a fault. -/
  user_value : Option Int
  /-- Whether `__put_user` succeeds. -/
  put_ok : Bool

/-- Kernel primitive `copy_to_user(to, from, n)`: the number of bytes that could
not be copied, at most `n`; zero on success. -/
def copy_to_user (k : Kernel) (n : Nat) : Nat := min k.uncopied n

/-- Kernel primitive `__get_user(x, ptr)` for an `int`: the result code and the
value left in `x`.  On a fault the result is `-EFAULT` and `x` is set to zero. -/
def __get_user (k : Kernel) : Int × Int :=
  match k.user_value with
  | some v => (0, to_int v)
  | none => (-EFAULT, 0)

/-- Kernel primitive `__put_user(x, ptr)` for an `int`: the result code and the
value stored at the user address, if any. -/
def __put_user (k : Kernel) (x : Int) : Int × Option Int :=
  if k.put_ok then (0, some x) else (-EFAULT, none)

/-! ## The task list -/

/-- Function `get_task`: the first node of the list with this pid and tgid. -/
def get_task (pid tgid : Int) : List task_node → Option task_node
  | [] => none
  | entry :: rest =>
    if entry.pid = pid ∧ entry.tgid = tgid then some entry
    else get_task pid tgid rest

/-- Function `add_task`: nothing when the task is in the list or `kmalloc`
fails, otherwise a new node at the tail. -/
def add_task (kmalloc : Bool) (pid tgid : Int) (task_list : List task_node) :
    List task_node :=
  if (get_task pid tgid task_list).isSome then task_list
  else if !kmalloc then task_list
  else task_list ++ [{ pid := pid, tgid := tgid }]

/-- Function `remove_tasks`: the loop unlinks and frees the entry at hand and
goes on with the rest. -/
def remove_tasks : List task_node → List task_node
  | [] => []
  | _ :: rest => remove_tasks rest

/-! ## Open and close -/

/-- Function `scull_open`: the return value and the new state. -/
def scull_open (k : Kernel) (current : task_struct) (d : Device) : Int × Device :=
  (0, { d with task_list := add_task k.kmalloc current.pid current.tgid d.task_list })

/-- Function `scull_release`. -/
def scull_release (d : Device) : Int × Device := (0, d)

/-! ## The ioctl implementation -/

/-- What one `scull_ioctl` call leaves behind: the `long` it returns, the
state, the `int` stored at `arg` by `__put_user`, and the `struct task_info`
stored at `arg` by a complete `copy_to_user`. -/
structure ioctl_result where
  ret : Int
  dev : Device
  user_int : Option Int
  user_info : Option task_info
deriving DecidableEq, Repr

/-- The `switch (cmd)` statement of `scull_ioctl`, read in the order of its
labels; reached once the three checks have passed. -/
def scull_switch (h : scull_h) (k : Kernel) (current : task_struct)
    (cmd arg : Nat) (d : Device) : ioctl_result :=
  if cmd = h.SCULL_IOCIQUANTUM then
    let info : task_info :=
      { __state := current.flags, cpu := current.cpu, prio := current.prio,
        pid := current.pid, tgid := current.tgid,
        nvcsw := current.nvcsw, nivcsw := current.nivcsw }
    let left := copy_to_user k sizeof_task_info
    let retval := to_int left
    let written := if left = 0 then some info else none
    if retval = 0 then
      ⟨retval, { d with task_list := add_task k.kmalloc info.pid info.tgid d.task_list },
        none, written⟩
    else ⟨retval, d, none, written⟩
  else if cmd = h.SCULL_IOCRESET then
    ⟨0, { d with scull_quantum := h.SCULL_QUANTUM }, none, none⟩
  else if cmd = h.SCULL_IOCSQUANTUM then
    let r := __get_user k
    ⟨r.1, { d with scull_quantum := r.2 }, none, none⟩
  else if cmd = h.SCULL_IOCTQUANTUM then
    ⟨0, { d with scull_quantum := to_int arg }, none, none⟩
  else if cmd = h.SCULL_IOCGQUANTUM then
    let w := __put_user k d.scull_quantum
    ⟨w.1, d, w.2, none⟩
  else if cmd = h.SCULL_IOCQQUANTUM then
    ⟨d.scull_quantum, d, none, none⟩
  else if cmd = h.SCULL_IOCXQUANTUM then
    let tmp := d.scull_quantum
    let r := __get_user k
    let d1 : Device := { d with scull_quantum := r.2 }
    if r.1 = 0 then
      let w := __put_user k tmp
      ⟨w.1, d1, w.2, none⟩
    else ⟨r.1, d1, none, none⟩
  else if cmd = h.SCULL_IOCHQUANTUM then
    let tmp := d.scull_quantum
    ⟨tmp, { d with scull_quantum := to_int arg }, none, none⟩
  else ⟨-ENOTTY, d, none, none⟩

/-- Function `scull_ioctl`: the family check, the range check, `access_ok` on
the argument with the size encoded in the command, then the `switch`. -/
def scull_ioctl (h : scull_h) (k : Kernel) (current : task_struct)
    (cmd arg : Nat) (d : Device) : ioctl_result :=
  if _IOC_TYPE cmd ≠ h.SCULL_IOC_MAGIC then ⟨-ENOTTY, d, none, none⟩
  else if _IOC_NR cmd > h.SCULL_IOC_MAXNR then ⟨-ENOTTY, d, none, none⟩
  else if !k.access_ok arg (_IOC_SIZE cmd) then ⟨-EFAULT, d, none, none⟩
  else scull_switch h k current cmd arg d

/-! ## Module teardown -/

/-- One line of the teardown report, `Task %d: PID %d, TGID %d`. -/
structure report_line where
  task_count : Int
  pid : Int
  tgid : Int
deriving DecidableEq, Repr

/-- The reporting loop of `scull_cleanup_module`, entered with the current
value of the `int task_count`. -/
def report_loop (task_count : Int) : List task_node → List report_line
  | [] => []
  | entry :: rest =>
    let task_count1 := to_int (task_count + 1)
    { task_count := task_count1, pid := entry.pid, tgid := entry.tgid } ::
      report_loop task_count1 rest

/-- Function `scull_cleanup_module`: the lines it prints and the new state. -/
def scull_cleanup_module (d : Device) : List report_line × Device :=
  (report_loop 0 d.task_list, { d with task_list := remove_tasks d.task_list })

/-! ## Runs of the device -/

/-- One call of an entry point of the driver, with everything it depends on. -/
inductive Op where
  | open_ (k : Kernel) (current : task_struct)
  | ioctl_ (k : Kernel) (current : task_struct) (cmd arg : Nat)
  | release_
  | cleanup_

/-- The state after one call. -/
def step (h : scull_h) (d : Device) : Op → Device
  | .open_ k current => (scull_open k current d).2
  | .ioctl_ k current cmd arg => (scull_ioctl h k current cmd arg d).dev
  | .release_ => (scull_release d).2
  | .cleanup_ => (scull_cleanup_module d).2

/-- The state after a sequence of calls, first call first. -/
def run (h : scull_h) (d : Device) (ops : List Op) : Device :=
  ops.foldl (step h) d

/-- The device as the module's initialisers leave it, for a given value of the
load-time parameter `scull_quantum`. -/
def loaded (quantum : Int) : Device := { task_list := [], scull_quantum := quantum }

/-! ## The command-line program `src/scull.c` -/

/-- Exit status `EXIT_SUCCESS`. -/
def EXIT_SUCCESS : Int := 0

/-- Exit status `EXIT_FAILURE`. -/
def EXIT_FAILURE : Int := 1

/-- What the system answers during one run of the program, and what the
program finds in a variable it never assigned. -/
structure System where
  /-- Result of `open(CDEV_NAME, O_RDONLY)`. -/
  open_ret : Int
  /-- Result of the `ioctl` call that `do_op` issues. -/
  ioctl_ret : Int
  /-- Result of `close(fd)`. -/
  close_ret : Int
  /-- Result of the i-th call of `fork` (0 in a child). -/
  fork_ret : Nat → Int
  /-- The value read from the local `ret` of `do_op` where no assignment
  precedes the read. -/
  ret_unassigned : Int

/-- How a function of the program ends: it returns a value, the process ends
in `exit(status)`, or in `abort()`. -/
inductive Ending where
  | returned (value : Int)
  | exited (status : Int)
  | aborted
deriving DecidableEq, Repr

/-- The first loop of case `p` in `do_op`, with `n` rounds left at index `i`:
the status of the `exit` it runs into, if any.  A child runs `do_process` and
exits with `EXIT_SUCCESS`; a failed `fork` exits with `EXIT_FAILURE`. -/
def fork_loop (s : System) : Nat → Nat → Option Int
  | 0, _ => none
  | n + 1, i =>
    if s.fork_ret i = 0 then some EXIT_SUCCESS
    else if s.fork_ret i < 0 then some EXIT_FAILURE
    else fork_loop s n (i + 1)

/-- Function `do_op` of the program.  The `switch` is read in the order of its
labels; `cmd` is the command letter. -/
def do_op (s : System) (cmd : Char) : Ending :=
  if cmd = 'p' then
    match fork_loop s 4 0 with
    | some status => .exited status
    | none => .returned s.ret_unassigned
  else if cmd = 'i' then .returned s.ioctl_ret
  else if cmd = 'R' then .returned s.ioctl_ret
  else if cmd = 'Q' then .returned 0
  else if cmd = 'G' then .returned s.ioctl_ret
  else if cmd = 'T' then .returned s.ioctl_ret
  else if cmd = 'S' then .returned s.ioctl_ret
  else if cmd = 'X' then .returned s.ioctl_ret
  else if cmd = 'H' then .returned 0
  else .aborted

/-- Function `main` of the program, from the point where `parse_arguments`
has returned the command letter `cmd`. -/
def main (s : System) (cmd : Char) : Ending :=
  if s.open_ret < 0 then .returned EXIT_FAILURE
  else
    match do_op s cmd with
    | .returned ret =>
      if s.close_ret ≠ 0 then .returned EXIT_FAILURE
      else .returned (if ret ≠ 0 then EXIT_FAILURE else EXIT_SUCCESS)
    | .exited status => .exited status
    | .aborted => .aborted

/-! ## Sample inputs -/

/-- A header instance with the command numbering of the original scull
interface (tag `k`, numbers 0 to 7), used where a concrete header is needed. -/
def sample_h : scull_h :=
  { SCULL_IOC_MAGIC := 107
    SCULL_IOC_MAXNR := 7
    SCULL_QUANTUM := 4000
    SCULL_IOCRESET := 0x6b00
    SCULL_IOCSQUANTUM := 0x40046b01
    SCULL_IOCTQUANTUM := 0x6b02
    SCULL_IOCGQUANTUM := 0x80046b03
    SCULL_IOCQQUANTUM := 0x6b04
    SCULL_IOCXQUANTUM := 0xc0046b05
    SCULL_IOCHQUANTUM := 0x6b06
    SCULL_IOCIQUANTUM := 0x80286b07 }

/-- A kernel that accepts user ranges below `2^47`, allocates, copies
everything and finds `user_value` at the user address. -/
def sample_k (user_value : Option Int) : Kernel :=
  { access_ok := fun addr size => decide (addr + size ≤ 140737488355328)
    kmalloc := true
    uncopied := 0
    user_value := user_value
    put_ok := true }

/-- A calling task. -/
def sample_task (pid tgid : Int) : task_struct :=
  { flags := 4194304, cpu := 1, prio := 120, pid := pid, tgid := tgid,
    nvcsw := 3, nivcsw := 0 }

/-- A run of the program in which `open` returns the descriptor 3, `close`
succeeds, every `fork` returns a child's pid, and the `ioctl` returns
`ioctl_ret`. -/
def sample_run (ioctl_ret : Int) : System :=
  { open_ret := 3
    ioctl_ret := ioctl_ret
    close_ret := 0
    fork_ret := fun _ => 1
    ret_unassigned := 0 }

/-! ## Registration sequences and the report the specification describes -/

/-- The node that `add_task` makes for an identity. -/
def node (r : Int × Int) : task_node := { pid := r.1, tgid := r.2 }

/-- A sequence of registrations `add_task(pid, tgid)`, every allocation
succeeding, applied in order to a task list. -/
def register_all (regs : List (Int × Int)) (task_list : List task_node) :
    List task_node :=
  regs.foldl (fun l r => add_task true r.1 r.2 l) task_list

/-- Specification side: the distinct identities of a sequence, each at the
place of its first occurrence. -/
def first_registered : List (Int × Int) → List (Int × Int)
  | [] => []
  | r :: rest => r :: (first_registered rest).filter (fun x => decide (x ≠ r))

/-- Specification side: one line per identity, the k-th line (counting from 1)
with sequence number k and the pid and tgid of the k-th identity. -/
def numbered_report (ids : List (Int × Int)) : List report_line :=
  ids.enum.map (fun p => { task_count := (p.1 : Int) + 1, pid := p.2.1, tgid := p.2.2 })

/-- A sequence of `2^31` registrations with pairwise different pids. -/
def big_regs : List (Int × Int) :=
  (List.range 2147483648).map (fun (i : Nat) => ((i : Int), (0 : Int)))

/-! ## Predicates used in the statements -/

/-- No two nodes of the list have the same pid and the same tgid. -/
@[reducible] def registry_unique (l : List task_node) : Prop :=
  l.Pairwise (fun a b => ¬ (a.pid = b.pid ∧ a.tgid = b.tgid))

/-- How many nodes of the list carry this pid and tgid. -/
def records_of (pid tgid : Int) (l : List task_node) : Nat :=
  l.countP (fun e => decide (e.pid = pid ∧ e.tgid = tgid))

/-- The command gets past the three checks that precede the `switch`: family
tag, command number, and `access_ok` of its argument. -/
@[reducible] def validated (h : scull_h) (k : Kernel) (cmd arg : Nat) : Prop :=
  _IOC_TYPE cmd = h.SCULL_IOC_MAGIC ∧ _IOC_NR cmd ≤ h.SCULL_IOC_MAXNR ∧
    k.access_ok arg (_IOC_SIZE cmd) = true

/-- The eight case labels of the `switch` are pairwise different, which C
demands of the labels of one `switch`. -/
@[reducible] def distinct_labels (h : scull_h) : Prop :=
  [h.SCULL_IOCIQUANTUM, h.SCULL_IOCRESET, h.SCULL_IOCSQUANTUM, h.SCULL_IOCTQUANTUM,
    h.SCULL_IOCGQUANTUM, h.SCULL_IOCQQUANTUM, h.SCULL_IOCXQUANTUM,
    h.SCULL_IOCHQUANTUM].Nodup

/-- The eight case labels of the `switch` of `scull_ioctl`, in source order. -/
def case_labels (h : scull_h) : List Nat :=
  [h.SCULL_IOCIQUANTUM, h.SCULL_IOCRESET, h.SCULL_IOCSQUANTUM, h.SCULL_IOCTQUANTUM,
    h.SCULL_IOCGQUANTUM, h.SCULL_IOCQQUANTUM, h.SCULL_IOCXQUANTUM,
    h.SCULL_IOCHQUANTUM]

/-- The case labels of the commands that work on the quantum only: RESET, SET,
TELL, GET, QUERY, EXCHANGE and SHIFT. -/
def quantum_labels (h : scull_h) : List Nat :=
  [h.SCULL_IOCRESET, h.SCULL_IOCSQUANTUM, h.SCULL_IOCTQUANTUM, h.SCULL_IOCGQUANTUM,
    h.SCULL_IOCQQUANTUM, h.SCULL_IOCXQUANTUM, h.SCULL_IOCHQUANTUM]

/-- The value is a C `int`. -/
@[reducible] def is_int (v : Int) : Prop := -2147483648 ≤ v ∧ v < 2147483648

/-! ## Machine integers: lemmas -/

theorem to_int_of_is_int (v : Int) (hv : is_int v) : to_int v = v := by
  unfold is_int at hv
  unfold to_int
  omega

theorem to_int_succ (c i : Int) : to_int (to_int (c + 1) + i + 1) = to_int (c + (i + 1) + 1) := by
  unfold to_int
  omega

/-! ## The task list: lemmas -/

theorem get_task_eq_none_iff (pid tgid : Int) (l : List task_node) :
    get_task pid tgid l = none ↔ ∀ e ∈ l, ¬ (e.pid = pid ∧ e.tgid = tgid) := by
  induction l with
  | nil => simp [get_task]
  | cons a l ih =>
    by_cases ha : a.pid = pid ∧ a.tgid = tgid
    · simp [get_task, ha]
    · simp only [get_task, if_neg ha, ih, List.mem_cons, forall_eq_or_imp]
      exact ⟨fun hl => ⟨ha, hl⟩, fun hl => hl.2⟩

theorem get_task_isSome_iff (pid tgid : Int) (l : List task_node) :
    (get_task pid tgid l).isSome = true ↔ ({ pid := pid, tgid := tgid } : task_node) ∈ l := by
  induction l with
  | nil => simp [get_task]
  | cons a l ih =>
    by_cases ha : a.pid = pid ∧ a.tgid = tgid
    · have : a = { pid := pid, tgid := tgid } := by
        cases a; simp_all
      simp [get_task, ha, this]
    · have hne : ({ pid := pid, tgid := tgid } : task_node) ≠ a := by
        intro hEq; apply ha; rw [← hEq]; exact ⟨rfl, rfl⟩
      simp only [get_task, if_neg ha, ih, List.mem_cons, hne, false_or]

theorem add_task_of_mem (b : Bool) (pid tgid : Int) (l : List task_node)
    (hmem : ({ pid := pid, tgid := tgid } : task_node) ∈ l) :
    add_task b pid tgid l = l := by
  have := (get_task_isSome_iff pid tgid l).2 hmem
  simp [add_task, this]

theorem add_task_of_not_mem (pid tgid : Int) (l : List task_node)
    (hmem : ({ pid := pid, tgid := tgid } : task_node) ∉ l) :
    add_task true pid tgid l = l ++ [{ pid := pid, tgid := tgid }] := by
  have : ¬ (get_task pid tgid l).isSome = true := fun hs =>
    hmem ((get_task_isSome_iff pid tgid l).1 hs)
  simp [add_task, this]

theorem add_task_no_memory (pid tgid : Int) (l : List task_node) :
    add_task false pid tgid l = l := by
  simp [add_task]

theorem add_task_cases (b : Bool) (pid tgid : Int) (l : List task_node) :
    add_task b pid tgid l = l ∨
      (({ pid := pid, tgid := tgid } : task_node) ∉ l ∧
        add_task b pid tgid l = l ++ [{ pid := pid, tgid := tgid }]) := by
  by_cases hmem : ({ pid := pid, tgid := tgid } : task_node) ∈ l
  · exact Or.inl (add_task_of_mem b pid tgid l hmem)
  · cases b with
    | false => exact Or.inl (add_task_no_memory pid tgid l)
    | true => exact Or.inr ⟨hmem, add_task_of_not_mem pid tgid l hmem⟩

theorem registry_unique_append (l : List task_node) (n : task_node)
    (hl : registry_unique l) (hn : n ∉ l) : registry_unique (l ++ [n]) := by
  unfold registry_unique at *
  rw [List.pairwise_append]
  refine ⟨hl, List.pairwise_singleton _ _, ?_⟩
  intro a ha b hb hab
  rw [List.mem_singleton] at hb
  subst hb
  apply hn
  have : a = b := by
    cases a; cases b; simp_all
  rw [← this]; exact ha

theorem add_task_unique (b : Bool) (pid tgid : Int) (l : List task_node)
    (hl : registry_unique l) : registry_unique (add_task b pid tgid l) := by
  rcases add_task_cases b pid tgid l with hEq | ⟨hmem, hEq⟩
  · rw [hEq]; exact hl
  · rw [hEq]; exact registry_unique_append l _ hl hmem

theorem remove_tasks_eq_nil (l : List task_node) : remove_tasks l = [] := by
  induction l with
  | nil => rfl
  | cons a l ih => simpa [remove_tasks] using ih

theorem registry_unique_nodup (l : List task_node) (hl : registry_unique l) : l.Nodup := by
  unfold registry_unique at hl
  refine List.Pairwise.imp ?_ hl
  intro a b hab hEq
  exact hab (by rw [hEq]; exact ⟨rfl, rfl⟩)

theorem records_of_eq_count (pid tgid : Int) (l : List task_node) :
    records_of pid tgid l = l.count { pid := pid, tgid := tgid } := by
  unfold records_of List.count
  apply List.countP_congr
  intro e _
  cases e
  simp [task_node.mk.injEq]

/-! ## The dispatcher: lemmas -/

theorem scull_ioctl_bad_type (h : scull_h) (k : Kernel) (current : task_struct)
    (cmd arg : Nat) (d : Device) (ht : _IOC_TYPE cmd ≠ h.SCULL_IOC_MAGIC) :
    scull_ioctl h k current cmd arg d = ⟨-ENOTTY, d, none, none⟩ := by
  unfold scull_ioctl
  rw [if_pos ht]

theorem scull_ioctl_bad_nr (h : scull_h) (k : Kernel) (current : task_struct)
    (cmd arg : Nat) (d : Device) (hn : _IOC_NR cmd > h.SCULL_IOC_MAXNR) :
    scull_ioctl h k current cmd arg d = ⟨-ENOTTY, d, none, none⟩ := by
  unfold scull_ioctl
  by_cases ht : _IOC_TYPE cmd ≠ h.SCULL_IOC_MAGIC
  · rw [if_pos ht]
  · rw [if_neg ht, if_pos hn]

theorem scull_ioctl_no_access (h : scull_h) (k : Kernel) (current : task_struct)
    (cmd arg : Nat) (d : Device) (ht : _IOC_TYPE cmd = h.SCULL_IOC_MAGIC)
    (hn : _IOC_NR cmd ≤ h.SCULL_IOC_MAXNR)
    (ha : k.access_ok arg (_IOC_SIZE cmd) = false) :
    scull_ioctl h k current cmd arg d = ⟨-EFAULT, d, none, none⟩ := by
  unfold scull_ioctl
  rw [if_neg (not_not.mpr ht), if_neg (Nat.not_lt.mpr hn)]
  simp [ha]

theorem scull_ioctl_validated (h : scull_h) (k : Kernel) (current : task_struct)
    (cmd arg : Nat) (d : Device) (hv : validated h k cmd arg) :
    scull_ioctl h k current cmd arg d = scull_switch h k current cmd arg d := by
  obtain ⟨ht, hn, ha⟩ := hv
  unfold scull_ioctl
  rw [if_neg (not_not.mpr ht), if_neg (Nat.not_lt.mpr hn)]
  simp [ha]

/-- Every call either fails one of the three checks, leaving everything as it
was, or runs the `switch`. -/
theorem scull_ioctl_cases (h : scull_h) (k : Kernel) (current : task_struct)
    (cmd arg : Nat) (d : Device) :
    (¬ validated h k cmd arg ∧ (scull_ioctl h k current cmd arg d).dev = d) ∨
      (validated h k cmd arg ∧
        scull_ioctl h k current cmd arg d = scull_switch h k current cmd arg d) := by
  by_cases ht : _IOC_TYPE cmd = h.SCULL_IOC_MAGIC
  · by_cases hn : _IOC_NR cmd ≤ h.SCULL_IOC_MAXNR
    · cases ha : k.access_ok arg (_IOC_SIZE cmd) with
      | false =>
        refine Or.inl ⟨fun hv => ?_, ?_⟩
        · rw [hv.2.2] at ha; exact Bool.noConfusion ha
        · rw [scull_ioctl_no_access h k current cmd arg d ht hn ha]
      | true =>
        exact Or.inr ⟨⟨ht, hn, ha⟩, scull_ioctl_validated h k current cmd arg d ⟨ht, hn, ha⟩⟩
    · refine Or.inl ⟨fun hv => hn hv.2.1, ?_⟩
      rw [scull_ioctl_bad_nr h k current cmd arg d (Nat.lt_of_not_le hn)]
  · refine Or.inl ⟨fun hv => ht hv.1, ?_⟩
    rw [scull_ioctl_bad_type h k current cmd arg d ht]

/-- The task list after the `switch` is the old one, or the old one after
`add_task` for the caller. -/
theorem scull_switch_task_list (h : scull_h) (k : Kernel) (current : task_struct)
    (cmd arg : Nat) (d : Device) :
    (scull_switch h k current cmd arg d).dev.task_list = d.task_list ∨
      (scull_switch h k current cmd arg d).dev.task_list =
        add_task k.kmalloc current.pid current.tgid d.task_list := by
  unfold scull_switch
  by_cases c1 : cmd = h.SCULL_IOCIQUANTUM
  · rw [if_pos c1]
    by_cases hr : to_int (copy_to_user k sizeof_task_info) = 0
    · right; simp only [hr, if_true]
    · left; simp only [hr, if_false]
  rw [if_neg c1]
  by_cases c2 : cmd = h.SCULL_IOCRESET
  · rw [if_pos c2]; exact Or.inl rfl
  rw [if_neg c2]
  by_cases c3 : cmd = h.SCULL_IOCSQUANTUM
  · rw [if_pos c3]; exact Or.inl rfl
  rw [if_neg c3]
  by_cases c4 : cmd = h.SCULL_IOCTQUANTUM
  · rw [if_pos c4]; exact Or.inl rfl
  rw [if_neg c4]
  by_cases c5 : cmd = h.SCULL_IOCGQUANTUM
  · rw [if_pos c5]; exact Or.inl rfl
  rw [if_neg c5]
  by_cases c6 : cmd = h.SCULL_IOCQQUANTUM
  · rw [if_pos c6]; exact Or.inl rfl
  rw [if_neg c6]
  by_cases c7 : cmd = h.SCULL_IOCXQUANTUM
  · rw [if_pos c7]
    left
    by_cases hr : (__get_user k).1 = 0
    · simp only [hr, if_true]
    · simp only [hr, if_false]
  rw [if_neg c7]
  by_cases c8 : cmd = h.SCULL_IOCHQUANTUM
  · rw [if_pos c8]; exact Or.inl rfl
  rw [if_neg c8]; exact Or.inl rfl

/-- The task list after any `scull_ioctl` call is the old one, or the old one
after `add_task` for the caller. -/
theorem scull_ioctl_task_list (h : scull_h) (k : Kernel) (current : task_struct)
    (cmd arg : Nat) (d : Device) :
    (scull_ioctl h k current cmd arg d).dev.task_list = d.task_list ∨
      (scull_ioctl h k current cmd arg d).dev.task_list =
        add_task k.kmalloc current.pid current.tgid d.task_list := by
  rcases scull_ioctl_cases h k current cmd arg d with ⟨_, hEq⟩ | ⟨_, hEq⟩
  · rw [hEq]; exact Or.inl rfl
  · rw [hEq]; exact scull_switch_task_list h k current cmd arg d

theorem step_unique (h : scull_h) (d : Device) (op : Op)
    (hd : registry_unique d.task_list) : registry_unique (step h d op).task_list := by
  cases op with
  | open_ k current => exact add_task_unique _ _ _ _ hd
  | ioctl_ k current cmd arg =>
    rcases scull_ioctl_task_list h k current cmd arg d with hEq | hEq
    · simp only [step, hEq]; exact hd
    · simp only [step, hEq]; exact add_task_unique _ _ _ _ hd
  | release_ => exact hd
  | cleanup_ =>
    simp only [step, scull_cleanup_module, remove_tasks_eq_nil]
    exact List.Pairwise.nil

theorem run_unique (h : scull_h) (ops : List Op) (d : Device)
    (hd : registry_unique d.task_list) : registry_unique (run h d ops).task_list := by
  induction ops generalizing d with
  | nil => exact hd
  | cons op ops ih => exact ih (step h d op) (step_unique h d op hd)

/-! ## The switch, command by command -/

theorem labels_ne (h : scull_h) (hd : distinct_labels h) :
    (h.SCULL_IOCRESET ≠ h.SCULL_IOCIQUANTUM) ∧
    (h.SCULL_IOCSQUANTUM ≠ h.SCULL_IOCIQUANTUM ∧ h.SCULL_IOCSQUANTUM ≠ h.SCULL_IOCRESET) ∧
    (h.SCULL_IOCTQUANTUM ≠ h.SCULL_IOCIQUANTUM ∧ h.SCULL_IOCTQUANTUM ≠ h.SCULL_IOCRESET ∧
      h.SCULL_IOCTQUANTUM ≠ h.SCULL_IOCSQUANTUM) ∧
    (h.SCULL_IOCGQUANTUM ≠ h.SCULL_IOCIQUANTUM ∧ h.SCULL_IOCGQUANTUM ≠ h.SCULL_IOCRESET ∧
      h.SCULL_IOCGQUANTUM ≠ h.SCULL_IOCSQUANTUM ∧ h.SCULL_IOCGQUANTUM ≠ h.SCULL_IOCTQUANTUM) ∧
    (h.SCULL_IOCQQUANTUM ≠ h.SCULL_IOCIQUANTUM ∧ h.SCULL_IOCQQUANTUM ≠ h.SCULL_IOCRESET ∧
      h.SCULL_IOCQQUANTUM ≠ h.SCULL_IOCSQUANTUM ∧ h.SCULL_IOCQQUANTUM ≠ h.SCULL_IOCTQUANTUM ∧
      h.SCULL_IOCQQUANTUM ≠ h.SCULL_IOCGQUANTUM) ∧
    (h.SCULL_IOCXQUANTUM ≠ h.SCULL_IOCIQUANTUM ∧ h.SCULL_IOCXQUANTUM ≠ h.SCULL_IOCRESET ∧
      h.SCULL_IOCXQUANTUM ≠ h.SCULL_IOCSQUANTUM ∧ h.SCULL_IOCXQUANTUM ≠ h.SCULL_IOCTQUANTUM ∧
      h.SCULL_IOCXQUANTUM ≠ h.SCULL_IOCGQUANTUM ∧ h.SCULL_IOCXQUANTUM ≠ h.SCULL_IOCQQUANTUM) ∧
    (h.SCULL_IOCHQUANTUM ≠ h.SCULL_IOCIQUANTUM ∧ h.SCULL_IOCHQUANTUM ≠ h.SCULL_IOCRESET ∧
      h.SCULL_IOCHQUANTUM ≠ h.SCULL_IOCSQUANTUM ∧ h.SCULL_IOCHQUANTUM ≠ h.SCULL_IOCTQUANTUM ∧
      h.SCULL_IOCHQUANTUM ≠ h.SCULL_IOCGQUANTUM ∧ h.SCULL_IOCHQUANTUM ≠ h.SCULL_IOCQQUANTUM ∧
      h.SCULL_IOCHQUANTUM ≠ h.SCULL_IOCXQUANTUM) := by
  unfold distinct_labels at hd
  simp only [List.nodup_cons, List.mem_cons, List.mem_singleton, not_or, List.not_mem_nil,
    not_false_eq_true, List.nodup_nil, and_true] at hd
  obtain ⟨⟨a1, a2, a3, a4, a5, a6, a7⟩, ⟨b2, b3, b4, b5, b6, b7⟩, ⟨c3, c4, c5, c6, c7⟩,
    ⟨d4, d5, d6, d7⟩, ⟨e5, e6, e7⟩, ⟨f6, f7⟩, g7⟩ := hd
  exact ⟨Ne.symm a1, ⟨Ne.symm a2, Ne.symm b2⟩, ⟨Ne.symm a3, Ne.symm b3, Ne.symm c3⟩,
    ⟨Ne.symm a4, Ne.symm b4, Ne.symm c4, Ne.symm d4⟩,
    ⟨Ne.symm a5, Ne.symm b5, Ne.symm c5, Ne.symm d5, Ne.symm e5⟩,
    ⟨Ne.symm a6, Ne.symm b6, Ne.symm c6, Ne.symm d6, Ne.symm e6, Ne.symm f6⟩,
    ⟨Ne.symm a7, Ne.symm b7, Ne.symm c7, Ne.symm d7, Ne.symm e7, Ne.symm f7, Ne.symm g7⟩⟩

theorem switch_IQUANTUM (h : scull_h) (k : Kernel) (current : task_struct)
    (arg : Nat) (d : Device) :
    scull_switch h k current h.SCULL_IOCIQUANTUM arg d =
      if to_int (copy_to_user k sizeof_task_info) = 0 then
        { ret := to_int (copy_to_user k sizeof_task_info)
          dev := { d with
            task_list := add_task k.kmalloc current.pid current.tgid d.task_list }
          user_int := none
          user_info :=
            if copy_to_user k sizeof_task_info = 0 then
              some { __state := current.flags, cpu := current.cpu, prio := current.prio,
                     pid := current.pid, tgid := current.tgid,
                     nvcsw := current.nvcsw, nivcsw := current.nivcsw }
            else none }
      else
        { ret := to_int (copy_to_user k sizeof_task_info)
          dev := d
          user_int := none
          user_info :=
            if copy_to_user k sizeof_task_info = 0 then
              some { __state := current.flags, cpu := current.cpu, prio := current.prio,
                     pid := current.pid, tgid := current.tgid,
                     nvcsw := current.nvcsw, nivcsw := current.nivcsw }
            else none } := by
  unfold scull_switch
  rw [if_pos rfl]

theorem switch_RESET (h : scull_h) (k : Kernel) (current : task_struct)
    (arg : Nat) (d : Device) (hd : distinct_labels h) :
    scull_switch h k current h.SCULL_IOCRESET arg d =
      { ret := 0, dev := { d with scull_quantum := h.SCULL_QUANTUM },
        user_int := none, user_info := none } := by
  obtain ⟨n1, -⟩ := labels_ne h hd
  unfold scull_switch
  rw [if_neg n1, if_pos rfl]

theorem switch_SQUANTUM (h : scull_h) (k : Kernel) (current : task_struct)
    (arg : Nat) (d : Device) (hd : distinct_labels h) :
    scull_switch h k current h.SCULL_IOCSQUANTUM arg d =
      { ret := (__get_user k).1, dev := { d with scull_quantum := (__get_user k).2 },
        user_int := none, user_info := none } := by
  obtain ⟨-, ⟨n1, n2⟩, -⟩ := labels_ne h hd
  unfold scull_switch
  rw [if_neg n1, if_neg n2, if_pos rfl]

theorem switch_TQUANTUM (h : scull_h) (k : Kernel) (current : task_struct)
    (arg : Nat) (d : Device) (hd : distinct_labels h) :
    scull_switch h k current h.SCULL_IOCTQUANTUM arg d =
      { ret := 0, dev := { d with scull_quantum := to_int arg },
        user_int := none, user_info := none } := by
  obtain ⟨-, -, ⟨n1, n2, n3⟩, -⟩ := labels_ne h hd
  unfold scull_switch
  rw [if_neg n1, if_neg n2, if_neg n3, if_pos rfl]

theorem switch_GQUANTUM (h : scull_h) (k : Kernel) (current : task_struct)
    (arg : Nat) (d : Device) (hd : distinct_labels h) :
    scull_switch h k current h.SCULL_IOCGQUANTUM arg d =
      { ret := (__put_user k d.scull_quantum).1, dev := d,
        user_int := (__put_user k d.scull_quantum).2, user_info := none } := by
  obtain ⟨-, -, -, ⟨n1, n2, n3, n4⟩, -⟩ := labels_ne h hd
  unfold scull_switch
  rw [if_neg n1, if_neg n2, if_neg n3, if_neg n4, if_pos rfl]

theorem switch_QQUANTUM (h : scull_h) (k : Kernel) (current : task_struct)
    (arg : Nat) (d : Device) (hd : distinct_labels h) :
    scull_switch h k current h.SCULL_IOCQQUANTUM arg d =
      { ret := d.scull_quantum, dev := d, user_int := none, user_info := none } := by
  obtain ⟨-, -, -, -, ⟨n1, n2, n3, n4, n5⟩, -⟩ := labels_ne h hd
  unfold scull_switch
  rw [if_neg n1, if_neg n2, if_neg n3, if_neg n4, if_neg n5, if_pos rfl]

theorem switch_XQUANTUM (h : scull_h) (k : Kernel) (current : task_struct)
    (arg : Nat) (d : Device) (hd : distinct_labels h) :
    scull_switch h k current h.SCULL_IOCXQUANTUM arg d =
      if (__get_user k).1 = 0 then
        { ret := (__put_user k d.scull_quantum).1
          dev := { d with scull_quantum := (__get_user k).2 }
          user_int := (__put_user k d.scull_quantum).2
          user_info := none }
      else
        { ret := (__get_user k).1
          dev := { d with scull_quantum := (__get_user k).2 }
          user_int := none
          user_info := none } := by
  obtain ⟨-, -, -, -, -, ⟨n1, n2, n3, n4, n5, n6⟩, -⟩ := labels_ne h hd
  unfold scull_switch
  rw [if_neg n1, if_neg n2, if_neg n3, if_neg n4, if_neg n5, if_neg n6, if_pos rfl]

theorem switch_HQUANTUM (h : scull_h) (k : Kernel) (current : task_struct)
    (arg : Nat) (d : Device) (hd : distinct_labels h) :
    scull_switch h k current h.SCULL_IOCHQUANTUM arg d =
      { ret := d.scull_quantum, dev := { d with scull_quantum := to_int arg },
        user_int := none, user_info := none } := by
  obtain ⟨-, -, -, -, -, -, ⟨n1, n2, n3, n4, n5, n6, n7⟩⟩ := labels_ne h hd
  unfold scull_switch
  rw [if_neg n1, if_neg n2, if_neg n3, if_neg n4, if_neg n5, if_neg n6, if_neg n7, if_pos rfl]

theorem to_int_copy_eq_zero_iff (k : Kernel) :
    to_int (copy_to_user k sizeof_task_info) = 0 ↔ copy_to_user k sizeof_task_info = 0 := by
  have hle : copy_to_user k sizeof_task_info ≤ 40 := Nat.min_le_right _ _
  unfold to_int
  omega

theorem get_user_of_value (k : Kernel) (v : Int) (hv : is_int v)
    (hbuf : k.user_value = some v) : __get_user k = (0, v) := by
  unfold __get_user
  rw [hbuf]
  simp only [to_int_of_is_int v hv]

theorem put_user_of_ok (k : Kernel) (x : Int) (hput : k.put_ok = true) :
    __put_user k x = (0, some x) := by
  unfold __put_user
  rw [if_pos hput]

/-! ## Registration sequences: lemmas -/

theorem node_injective : Function.Injective node := by
  intro a b hab
  cases a; cases b
  simp only [node, task_node.mk.injEq] at hab
  exact Prod.ext hab.1 hab.2

theorem register_all_eq (regs : List (Int × Int)) (l : List task_node) :
    register_all regs l =
      l ++ ((first_registered regs).filter (fun x => decide (node x ∉ l))).map node := by
  induction regs generalizing l with
  | nil => simp [register_all, first_registered]
  | cons r rs ih =>
    have hstep : register_all (r :: rs) l = register_all rs (add_task true r.1 r.2 l) := rfl
    rw [hstep, ih]
    by_cases hmem : node r ∈ l
    · rw [add_task_of_mem true r.1 r.2 l hmem]
      congr 2
      simp only [first_registered, List.filter_cons, hmem, not_true_eq_false, decide_False,
        Bool.false_eq_true, if_false, List.filter_filter]
      apply List.filter_congr
      intro x _
      by_cases hx : node x ∈ l
      · simp [hx]
      · have : x ≠ r := fun hxr => hx (hxr ▸ hmem)
        simp [hx, this]
    · rw [add_task_of_not_mem r.1 r.2 l hmem]
      have hnode : ({ pid := r.1, tgid := r.2 } : task_node) = node r := rfl
      rw [hnode]
      simp only [first_registered, List.filter_cons, hmem, not_false_eq_true, decide_True,
        if_true, List.filter_filter, List.map_cons, List.append_assoc, List.singleton_append]
      congr 3
      apply List.filter_congr
      intro x _
      by_cases hxr : x = r
      · simp [hxr]
      · have : node x ≠ node r := fun hn => hxr (node_injective hn)
        simp [hxr, this]

theorem register_all_nil (regs : List (Int × Int)) :
    register_all regs [] = (first_registered regs).map node := by
  rw [register_all_eq]
  simp

theorem mem_first_registered (regs : List (Int × Int)) (x : Int × Int) :
    x ∈ first_registered regs ↔ x ∈ regs := by
  induction regs with
  | nil => simp [first_registered]
  | cons r rs ih =>
    simp only [first_registered, List.mem_cons, List.mem_filter, ih, decide_eq_true_eq]
    by_cases hxr : x = r
    · simp [hxr]
    · simp [hxr]

theorem first_registered_nodup (regs : List (Int × Int)) : (first_registered regs).Nodup := by
  induction regs with
  | nil => simp [first_registered]
  | cons r rs ih =>
    simp only [first_registered, List.nodup_cons, List.mem_filter, decide_eq_true_eq]
    exact ⟨fun hr => hr.2 rfl, ih.filter _⟩

theorem first_registered_of_nodup (regs : List (Int × Int)) (hnd : regs.Nodup) :
    first_registered regs = regs := by
  induction regs with
  | nil => rfl
  | cons r rs ih =>
    rw [List.nodup_cons] at hnd
    simp only [first_registered, ih hnd.2]
    congr 1
    rw [List.filter_eq_self]
    intro a ha
    simp only [decide_eq_true_eq]
    exact fun har => hnd.1 (har ▸ ha)

/-! ## The report: lemmas -/

/-- Line `i` of the report carries the wrapped counter and the identity of
entry `i`. -/
theorem report_loop_getElem? (l : List task_node) (c : Int) (i : Nat) :
    (report_loop c l)[i]? =
      (l[i]?).map (fun e => { task_count := to_int (c + (i : Int) + 1), pid := e.pid, tgid := e.tgid }) := by
  induction l generalizing c i with
  | nil => simp [report_loop]
  | cons a l ih =>
    cases i with
    | zero => simp [report_loop]
    | succ i =>
      simp only [report_loop, List.getElem?_cons_succ, ih]
      congr 1
      funext e
      rw [to_int_succ]
      push_cast
      rfl

/-- Below `2^31` entries the counter does not wrap. -/
theorem report_loop_eq (ids : List (Int × Int)) (n : Nat)
    (hlen : n + ids.length < 2147483648) :
    report_loop (n : Int) (ids.map node) =
      (ids.enumFrom n).map
        (fun p => { task_count := (p.1 : Int) + 1, pid := p.2.1, tgid := p.2.2 }) := by
  induction ids generalizing n with
  | nil => rfl
  | cons r rs ih =>
    simp only [List.length_cons] at hlen
    have h1 : to_int ((n : Int) + 1) = ((n + 1 : Nat) : Int) := by
      rw [to_int_of_is_int]
      · push_cast; rfl
      · unfold is_int; omega
    simp only [List.map_cons, report_loop, List.enumFrom_cons, h1]
    rw [ih (n + 1) (by omega)]
    simp [node]

theorem big_regs_nodup : big_regs.Nodup := by
  unfold big_regs
  refine List.Nodup.map ?_ (List.nodup_range _)
  intro a b hab
  simp only [Prod.mk.injEq, Nat.cast_inj, and_true] at hab
  exact hab

theorem big_regs_last : big_regs[2147483647]? = some ((2147483647 : Int), (0 : Int)) := by
  unfold big_regs
  rw [List.getElem?_map, List.getElem?_range (by omega)]
  rfl


theorem report_loop_ids (l : List task_node) (c : Int) :
    (report_loop c l).map (fun line => (line.pid, line.tgid)) =
      l.map (fun e => (e.pid, e.tgid)) := by
  induction l generalizing c with
  | nil => rfl
  | cons a l ih => simp only [report_loop, List.map_cons, ih]

theorem numbered_report_getElem? (ids : List (Int × Int)) (i : Nat) :
    (numbered_report ids)[i]? =
      (ids[i]?).map (fun r => { task_count := (i : Int) + 1, pid := r.1, tgid := r.2 }) := by
  unfold numbered_report
  rw [List.getElem?_map, List.getElem?_enum]
  cases ids[i]? <;> rfl

/-- The first `2^31 - 1` lines of the report are numbered 1, 2, 3 and so on. -/
theorem report_loop_take (ids : List (Int × Int)) :
    (report_loop 0 (ids.map node)).take 2147483647 =
      (numbered_report ids).take 2147483647 := by
  apply List.ext_getElem?
  intro i
  by_cases hi : i < 2147483647
  · rw [List.getElem?_take_of_lt hi, List.getElem?_take_of_lt hi, report_loop_getElem?,
      numbered_report_getElem?, List.getElem?_map]
    have hnum : to_int (0 + (i : Int) + 1) = (i : Int) + 1 := by
      unfold to_int; omega
    rw [hnum]
    cases ids[i]? <;> rfl
  · rw [List.getElem?_take_eq_none (Nat.le_of_not_lt hi),
      List.getElem?_take_eq_none (Nat.le_of_not_lt hi)]

/-! ## Further lemmas on the dispatcher -/

theorem _IOC_NR_eq (cmd : Nat) : _IOC_NR cmd = cmd % 256 := by
  unfold _IOC_NR
  rw [Nat.shiftRight_eq_div_pow]
  have hmask := Nat.and_pow_two_sub_one_eq_mod (cmd / 2 ^ 0) 8
  norm_num at hmask ⊢
  exact hmask

theorem _IOC_TYPE_eq (cmd : Nat) : _IOC_TYPE cmd = cmd / 256 % 256 := by
  unfold _IOC_TYPE
  rw [Nat.shiftRight_eq_div_pow]
  have hmask := Nat.and_pow_two_sub_one_eq_mod (cmd / 2 ^ 8) 8
  norm_num at hmask ⊢
  exact hmask

/-- A command that is not the INTROSPECT label leaves the task list alone. -/
theorem scull_switch_task_list_of_ne (h : scull_h) (k : Kernel) (current : task_struct)
    (cmd arg : Nat) (d : Device) (c1 : cmd ≠ h.SCULL_IOCIQUANTUM) :
    (scull_switch h k current cmd arg d).dev.task_list = d.task_list := by
  unfold scull_switch
  rw [if_neg c1]
  by_cases c2 : cmd = h.SCULL_IOCRESET
  · rw [if_pos c2]
  rw [if_neg c2]
  by_cases c3 : cmd = h.SCULL_IOCSQUANTUM
  · rw [if_pos c3]
  rw [if_neg c3]
  by_cases c4 : cmd = h.SCULL_IOCTQUANTUM
  · rw [if_pos c4]
  rw [if_neg c4]
  by_cases c5 : cmd = h.SCULL_IOCGQUANTUM
  · rw [if_pos c5]
  rw [if_neg c5]
  by_cases c6 : cmd = h.SCULL_IOCQQUANTUM
  · rw [if_pos c6]
  rw [if_neg c6]
  by_cases c7 : cmd = h.SCULL_IOCXQUANTUM
  · rw [if_pos c7]
    by_cases hr : (__get_user k).1 = 0
    · simp only [hr, if_true]
    · simp only [hr, if_false]
  rw [if_neg c7]
  by_cases c8 : cmd = h.SCULL_IOCHQUANTUM
  · rw [if_pos c8]
  rw [if_neg c8]

theorem scull_ioctl_task_list_of_ne (h : scull_h) (k : Kernel) (current : task_struct)
    (cmd arg : Nat) (d : Device) (c1 : cmd ≠ h.SCULL_IOCIQUANTUM) :
    (scull_ioctl h k current cmd arg d).dev.task_list = d.task_list := by
  rcases scull_ioctl_cases h k current cmd arg d with ⟨_, hEq⟩ | ⟨_, hEq⟩
  · rw [hEq]
  · rw [hEq]; exact scull_switch_task_list_of_ne h k current cmd arg d c1

/-- A command that is none of the case labels runs into `default`. -/
theorem scull_switch_default (h : scull_h) (k : Kernel) (current : task_struct)
    (cmd arg : Nat) (d : Device) (hno : cmd ∉ case_labels h) :
    scull_switch h k current cmd arg d =
      { ret := -ENOTTY, dev := d, user_int := none, user_info := none } := by
  simp only [case_labels, List.mem_cons, List.mem_singleton, not_or, List.not_mem_nil,
    or_false] at hno
  obtain ⟨c1, c2, c3, c4, c5, c6, c7, c8⟩ := hno
  unfold scull_switch
  rw [if_neg c1, if_neg c2, if_neg c3, if_neg c4, if_neg c5, if_neg c6, if_neg c7, if_neg c8]

theorem quantum_label_ne (h : scull_h) (hd : distinct_labels h) (cmd : Nat)
    (hq : cmd ∈ quantum_labels h) : cmd ≠ h.SCULL_IOCIQUANTUM := by
  obtain ⟨n1, ⟨n2, -⟩, ⟨n3, -⟩, ⟨n4, -⟩, ⟨n5, -⟩, ⟨n6, -⟩, ⟨n7, -⟩⟩ := labels_ne h hd
  simp only [quantum_labels, List.mem_cons, List.mem_singleton, List.not_mem_nil,
    or_false] at hq
  rcases hq with rfl | rfl | rfl | rfl | rfl | rfl | rfl <;> assumption

theorem add_task_prefix (b : Bool) (pid tgid : Int) (l : List task_node) :
    l <+: add_task b pid tgid l ∧ (add_task b pid tgid l).length ≤ l.length + 1 := by
  rcases add_task_cases b pid tgid l with hEq | ⟨-, hEq⟩
  · rw [hEq]; exact ⟨List.prefix_refl l, Nat.le_succ _⟩
  · rw [hEq]
    exact ⟨List.prefix_append l _, by simp⟩

/-- Among nine codes with the family tag, number 0 and different size fields,
one is not a case label. -/
theorem unlabelled_code_exists (h : scull_h) (hm : h.SCULL_IOC_MAGIC < 256) :
    ∃ cmd : Nat, cmd < 4294967296 ∧ _IOC_TYPE cmd = h.SCULL_IOC_MAGIC ∧
      _IOC_NR cmd ≤ h.SCULL_IOC_MAXNR ∧ cmd ∉ case_labels h := by
  by_contra hne
  have hall : ∀ j : Nat, j < 9 → h.SCULL_IOC_MAGIC * 256 + 65536 * j ∈ case_labels h := by
    intro j hj
    by_contra hnot
    apply hne
    refine ⟨h.SCULL_IOC_MAGIC * 256 + 65536 * j, by omega, ?_, ?_, hnot⟩
    · rw [_IOC_TYPE_eq]; omega
    · rw [_IOC_NR_eq]
      have : (h.SCULL_IOC_MAGIC * 256 + 65536 * j) % 256 = 0 := by omega
      rw [this]; exact Nat.zero_le _
  have hnd : ((List.range 9).map (fun j => h.SCULL_IOC_MAGIC * 256 + 65536 * j)).Nodup := by
    refine List.Nodup.map ?_ (List.nodup_range 9)
    intro a b hab
    simp only at hab
    omega
  have hsub : (List.range 9).map (fun j => h.SCULL_IOC_MAGIC * 256 + 65536 * j) ⊆
      case_labels h := by
    intro x hx
    rw [List.mem_map] at hx
    obtain ⟨j, hj, rfl⟩ := hx
    exact hall j (List.mem_range.1 hj)
  have hlen := (hnd.subperm hsub).length_le
  simp [case_labels] at hlen

/-! ## Failing copies: lemmas -/

theorem get_user_of_fault (k : Kernel) (hbuf : k.user_value = none) :
    __get_user k = (-EFAULT, 0) := by
  unfold __get_user
  rw [hbuf]

theorem put_user_of_fault (k : Kernel) (x : Int) (hput : k.put_ok = false) :
    __put_user k x = (-EFAULT, none) := by
  unfold __put_user
  rw [hput]
  rfl

/-- A failed copy in SET, GET and EXCHANGE comes back as `-EFAULT`. -/
theorem copy_failure_of_get_put (h : scull_h) (k : Kernel) (current : task_struct)
    (arg : Nat) (d : Device) (hd : distinct_labels h) :
    (validated h k h.SCULL_IOCSQUANTUM arg → k.user_value = none →
        (scull_ioctl h k current h.SCULL_IOCSQUANTUM arg d).ret = -EFAULT) ∧
      (validated h k h.SCULL_IOCGQUANTUM arg → k.put_ok = false →
        (scull_ioctl h k current h.SCULL_IOCGQUANTUM arg d).ret = -EFAULT) ∧
      (validated h k h.SCULL_IOCXQUANTUM arg → k.user_value = none →
        (scull_ioctl h k current h.SCULL_IOCXQUANTUM arg d).ret = -EFAULT) ∧
      (validated h k h.SCULL_IOCXQUANTUM arg → k.put_ok = false →
        (scull_ioctl h k current h.SCULL_IOCXQUANTUM arg d).ret = -EFAULT) := by
  refine ⟨fun hv hb => ?_, fun hv hp => ?_, fun hv hb => ?_, fun hv hp => ?_⟩
  · rw [scull_ioctl_validated h k current _ arg d hv, switch_SQUANTUM h k current arg d hd,
      get_user_of_fault k hb]
  · rw [scull_ioctl_validated h k current _ arg d hv, switch_GQUANTUM h k current arg d hd,
      put_user_of_fault k _ hp]
  · rw [scull_ioctl_validated h k current _ arg d hv, switch_XQUANTUM h k current arg d hd,
      get_user_of_fault k hb]
    rfl
  · rw [scull_ioctl_validated h k current _ arg d hv, switch_XQUANTUM h k current arg d hd,
      put_user_of_fault k _ hp]
    by_cases hr : (__get_user k).1 = 0
    · rw [if_pos hr]
    · rw [if_neg hr]
      unfold __get_user at hr ⊢
      cases hval : k.user_value with
      | none => rfl
      | some v => rw [hval] at hr; exact absurd rfl hr

/-- A failed copy in INTROSPECT comes back as the number of bytes left. -/
theorem copy_failure_of_introspect (h : scull_h) (k : Kernel) (current : task_struct)
    (arg : Nat) (d : Device) (hv : validated h k h.SCULL_IOCIQUANTUM arg)
    (hc : copy_to_user k sizeof_task_info ≠ 0) :
    (scull_ioctl h k current h.SCULL_IOCIQUANTUM arg d).ret =
        (copy_to_user k sizeof_task_info : Int) ∧
      0 < (scull_ioctl h k current h.SCULL_IOCIQUANTUM arg d).ret := by
  have hle : copy_to_user k sizeof_task_info ≤ 40 := Nat.min_le_right _ _
  have hr : ¬ to_int (copy_to_user k sizeof_task_info) = 0 := fun h0 =>
    hc ((to_int_copy_eq_zero_iff k).1 h0)
  have hval : to_int (copy_to_user k sizeof_task_info) =
      (copy_to_user k sizeof_task_info : Int) := by
    apply to_int_of_is_int
    unfold is_int
    omega
  rw [scull_ioctl_validated h k current _ arg d hv, switch_IQUANTUM h k current arg d,
    if_neg hr]
  refine ⟨hval, ?_⟩
  show 0 < to_int (copy_to_user k sizeof_task_info)
  rw [hval]
  omega

/-! ## Claims -/

/-- C1. Starting from the empty registry, after any sequence of opens, ioctl
calls (any command code, argument, caller, copy and allocation outcome),
releases and teardowns, no two nodes of the task list have the same pid and
the same tgid. -/
theorem uniqueness_invariant (h : scull_h) (quantum : Int) (ops : List Op) :
    (run h (loaded quantum) ops).task_list.Pairwise
      (fun a b => ¬ (a.pid = b.pid ∧ a.tgid = b.tgid)) :=
  run_unique h ops (loaded quantum) List.Pairwise.nil

/-- C2. For a registry without duplicates and any pid and tgid, after
`add_task` with a successful allocation exactly one record has that identity,
and a second `add_task` for the same identity returns the very same list, so
still with exactly one such record. -/
theorem idempotent_registration (l : List task_node) (pid tgid : Int)
    (hl : registry_unique l) :
    records_of pid tgid (add_task true pid tgid l) = 1 ∧
      add_task true pid tgid (add_task true pid tgid l) = add_task true pid tgid l := by
  have hnd : l.Nodup := registry_unique_nodup l hl
  by_cases hmem : ({ pid := pid, tgid := tgid } : task_node) ∈ l
  · rw [add_task_of_mem true pid tgid l hmem, add_task_of_mem true pid tgid l hmem,
      records_of_eq_count]
    exact ⟨List.count_eq_one_of_mem hnd hmem, rfl⟩
  · rw [add_task_of_not_mem pid tgid l hmem]
    refine ⟨?_, add_task_of_mem true pid tgid _ (by simp)⟩
    rw [records_of_eq_count, List.count_append, List.count_eq_zero_of_not_mem hmem]
    simp

/-- Witness of C2 on a two-record registry and a new identity. -/
theorem idempotent_registration_witness :
    registry_unique [{ pid := 1, tgid := 1 }, { pid := 2, tgid := 1 }] ∧
      records_of 3 1 (add_task true 3 1 [{ pid := 1, tgid := 1 }, { pid := 2, tgid := 1 }]) = 1 ∧
      add_task true 3 1 (add_task true 3 1 [{ pid := 1, tgid := 1 }, { pid := 2, tgid := 1 }]) =
        add_task true 3 1 [{ pid := 1, tgid := 1 }, { pid := 2, tgid := 1 }] :=
  ⟨by decide, idempotent_registration _ 3 1 (by decide)⟩

/-- C3, as stated, fails: after `2^31` registrations with different pids the
line number `2^31` of the report carries the sequence number `-2^31`, where
the numbering of the claim has `2^31`; so the report is not the numbered list
of the claim. -/
theorem report_counter_wraps :
    (scull_cleanup_module
        { task_list := register_all big_regs [], scull_quantum := 0 }).1[2147483647]? =
        some { task_count := -2147483648, pid := 2147483647, tgid := 0 } ∧
      (numbered_report (first_registered big_regs))[2147483647]? =
        some { task_count := 2147483648, pid := 2147483647, tgid := 0 } ∧
      (scull_cleanup_module
          { task_list := register_all big_regs [], scull_quantum := 0 }).1 ≠
        numbered_report (first_registered big_regs) := by
  have hcode : (scull_cleanup_module
        { task_list := register_all big_regs [], scull_quantum := 0 }).1[2147483647]? =
        some { task_count := -2147483648, pid := 2147483647, tgid := 0 } := by
    simp only [scull_cleanup_module]
    rw [register_all_nil, first_registered_of_nodup _ big_regs_nodup, report_loop_getElem?,
      List.getElem?_map, big_regs_last]
    simp only [Option.map_some', node]
    have hwrap : to_int (0 + ((2147483647 : Nat) : Int) + 1) = -2147483648 := by
      unfold to_int; omega
    rw [hwrap]
  have hspec : (numbered_report (first_registered big_regs))[2147483647]? =
        some { task_count := 2147483648, pid := 2147483647, tgid := 0 } := by
    rw [first_registered_of_nodup _ big_regs_nodup, numbered_report_getElem?, big_regs_last]
    simp only [Option.map_some']
    norm_num
  refine ⟨hcode, hspec, fun hEq => ?_⟩
  rw [hEq, hspec] at hcode
  simp only [Option.some.injEq, report_line.mk.injEq, and_true] at hcode
  omega

/-- C3, amended. For every sequence of registrations applied to an empty
registry (allocation succeeding), the report of `scull_cleanup_module` lists
exactly the distinct identities in the order each was first registered, one
line per record; its first `2^31 - 1` lines carry the sequence numbers 1, 2,
3 and so on with that record's pid and tgid; so with fewer than `2^31`
distinct identities the k-th line carries sequence number k throughout. -/
theorem insertion_order_report (regs : List (Int × Int)) (quantum : Int) :
    ((scull_cleanup_module
          { task_list := register_all regs [], scull_quantum := quantum }).1.map
        (fun line => (line.pid, line.tgid)) = first_registered regs) ∧
      ((scull_cleanup_module
          { task_list := register_all regs [], scull_quantum := quantum }).1.take 2147483647 =
        (numbered_report (first_registered regs)).take 2147483647) ∧
      ((first_registered regs).length < 2147483648 →
        (scull_cleanup_module
            { task_list := register_all regs [], scull_quantum := quantum }).1 =
          numbered_report (first_registered regs)) := by
  simp only [scull_cleanup_module]
  rw [register_all_nil]
  refine ⟨?_, report_loop_take _, fun hlen => ?_⟩
  · rw [report_loop_ids, List.map_map]
    exact List.map_id _
  · have h0 := report_loop_eq (first_registered regs) 0 (by omega)
    simpa [numbered_report, List.enum] using h0

/-- Witness of C3: three registrations, the first identity registered twice. -/
theorem insertion_order_report_witness :
    (first_registered [(7, 7), (9, 7), (7, 7)]).length < 2147483648 ∧
      (scull_cleanup_module
          { task_list := register_all [(7, 7), (9, 7), (7, 7)] [], scull_quantum := 0 }).1 =
        [{ task_count := 1, pid := 7, tgid := 7 }, { task_count := 2, pid := 9, tgid := 7 }] :=
  ⟨by decide,
    ((insertion_order_report [(7, 7), (9, 7), (7, 7)] 0).2.2 (by decide)).trans (by decide)⟩

/-- C4. For every registry state, `remove_tasks` leaves a list of length zero
in which `get_task` finds no pid and tgid, and so does the teardown
`scull_cleanup_module` that invokes it. -/
theorem drain_empties_registry (d : Device) :
    (remove_tasks d.task_list).length = 0 ∧
      (∀ pid tgid : Int, get_task pid tgid (remove_tasks d.task_list) = none) ∧
      (scull_cleanup_module d).2.task_list.length = 0 ∧
      (∀ pid tgid : Int, get_task pid tgid (scull_cleanup_module d).2.task_list = none) := by
  simp only [scull_cleanup_module, remove_tasks_eq_nil]
  exact ⟨rfl, fun _ _ => rfl, rfl, fun _ _ => rfl⟩

/-- C5. For every command code whose type tag differs from `SCULL_IOC_MAGIC`
or whose number exceeds `SCULL_IOC_MAXNR`, for every argument, every answer of
the kernel (also an `access_ok` that would refuse the argument) and every
prior state, `scull_ioctl` returns `-ENOTTY`, stores nothing in user memory
and leaves the quantum and the task list as they were. -/
theorem invalid_command (h : scull_h) (k : Kernel) (current : task_struct)
    (cmd arg : Nat) (d : Device)
    (hbad : _IOC_TYPE cmd ≠ h.SCULL_IOC_MAGIC ∨ _IOC_NR cmd > h.SCULL_IOC_MAXNR) :
    (scull_ioctl h k current cmd arg d).ret = -ENOTTY ∧
      (scull_ioctl h k current cmd arg d).dev.scull_quantum = d.scull_quantum ∧
      (scull_ioctl h k current cmd arg d).dev.task_list = d.task_list ∧
      (scull_ioctl h k current cmd arg d).user_int = none ∧
      (scull_ioctl h k current cmd arg d).user_info = none := by
  rcases hbad with ht | hn
  · rw [scull_ioctl_bad_type h k current cmd arg d ht]
    exact ⟨rfl, rfl, rfl, rfl, rfl⟩
  · rw [scull_ioctl_bad_nr h k current cmd arg d hn]
    exact ⟨rfl, rfl, rfl, rfl, rfl⟩

/-- Witness of C5: a command of another family, with an argument that
`access_ok` refuses. -/
theorem invalid_command_witness :
    (_IOC_TYPE 27649 ≠ sample_h.SCULL_IOC_MAGIC ∨ _IOC_NR 27649 > sample_h.SCULL_IOC_MAXNR) ∧
      (sample_k none).access_ok 18446744073709551615 (_IOC_SIZE 27649) = false ∧
      (scull_ioctl sample_h (sample_k none) (sample_task 10 10) 27649
          18446744073709551615 (loaded 4000)).ret = -ENOTTY :=
  ⟨by decide, by decide,
    (invalid_command sample_h (sample_k none) (sample_task 10 10) 27649
      18446744073709551615 (loaded 4000) (by decide)).1⟩

/-- C6. For every command code of the recognized family and range whose
argument and encoded size `access_ok` refuses, `scull_ioctl` returns `-EFAULT`,
stores nothing in user memory and leaves the quantum and the task list as they
were. -/
theorem validation_failure_atomic (h : scull_h) (k : Kernel) (current : task_struct)
    (cmd arg : Nat) (d : Device)
    (ht : _IOC_TYPE cmd = h.SCULL_IOC_MAGIC) (hn : _IOC_NR cmd ≤ h.SCULL_IOC_MAXNR)
    (ha : k.access_ok arg (_IOC_SIZE cmd) = false) :
    (scull_ioctl h k current cmd arg d).ret = -EFAULT ∧
      (scull_ioctl h k current cmd arg d).dev.scull_quantum = d.scull_quantum ∧
      (scull_ioctl h k current cmd arg d).dev.task_list = d.task_list ∧
      (scull_ioctl h k current cmd arg d).user_int = none ∧
      (scull_ioctl h k current cmd arg d).user_info = none := by
  rw [scull_ioctl_no_access h k current cmd arg d ht hn ha]
  exact ⟨rfl, rfl, rfl, rfl, rfl⟩

/-- Witness of C6: the SET command with an address that `access_ok` refuses. -/
theorem validation_failure_atomic_witness :
    _IOC_TYPE sample_h.SCULL_IOCSQUANTUM = sample_h.SCULL_IOC_MAGIC ∧
      _IOC_NR sample_h.SCULL_IOCSQUANTUM ≤ sample_h.SCULL_IOC_MAXNR ∧
      (sample_k (some 7)).access_ok 18446744073709551615
        (_IOC_SIZE sample_h.SCULL_IOCSQUANTUM) = false ∧
      (scull_ioctl sample_h (sample_k (some 7)) (sample_task 10 10)
          sample_h.SCULL_IOCSQUANTUM 18446744073709551615 (loaded 4000)).ret = -EFAULT ∧
      (scull_ioctl sample_h (sample_k (some 7)) (sample_task 10 10)
          sample_h.SCULL_IOCSQUANTUM 18446744073709551615 (loaded 4000)).dev.scull_quantum =
        4000 :=
  ⟨by decide, by decide, by decide,
    (validation_failure_atomic sample_h (sample_k (some 7)) (sample_task 10 10)
      sample_h.SCULL_IOCSQUANTUM 18446744073709551615 (loaded 4000)
      (by decide) (by decide) (by decide)).1,
    (validation_failure_atomic sample_h (sample_k (some 7)) (sample_task 10 10)
      sample_h.SCULL_IOCSQUANTUM 18446744073709551615 (loaded 4000)
      (by decide) (by decide) (by decide)).2.1⟩

/-- C7, as stated, fails: a SET with an accessible buffer holding 7 succeeds
and stores 7, and a QUERY issued next with the argument `2^64 - 1`, which
`access_ok` refuses, returns `-EFAULT` and not 7. -/
theorem query_after_set_refused :
    validated sample_h (sample_k (some 7)) sample_h.SCULL_IOCSQUANTUM 4096 ∧
      (scull_ioctl sample_h (sample_k (some 7)) (sample_task 10 10)
          sample_h.SCULL_IOCSQUANTUM 4096 (loaded 4000)) =
        { ret := 0, dev := { task_list := [], scull_quantum := 7 },
          user_int := none, user_info := none } ∧
      (scull_ioctl sample_h (sample_k none) (sample_task 10 10)
          sample_h.SCULL_IOCQQUANTUM 18446744073709551615
          { task_list := [], scull_quantum := 7 }).ret = -14 ∧
      (scull_ioctl sample_h (sample_k none) (sample_task 10 10)
          sample_h.SCULL_IOCQQUANTUM 18446744073709551615
          { task_list := [], scull_quantum := 7 }).ret ≠ 7 := by
  decide

/-- C7, amended. For every representable int `v` and every prior state, a SET
command whose buffer is accessible and holds `v`, followed by a QUERY command
whose argument passes the access check of the dispatcher, makes QUERY return
exactly `v`. -/
theorem set_then_query (h : scull_h) (k1 k2 : Kernel) (c1 c2 : task_struct)
    (arg1 arg2 : Nat) (d : Device) (v : Int)
    (hd : distinct_labels h) (hv : is_int v)
    (hset : validated h k1 h.SCULL_IOCSQUANTUM arg1) (hbuf : k1.user_value = some v)
    (hquery : validated h k2 h.SCULL_IOCQQUANTUM arg2) :
    (scull_ioctl h k2 c2 h.SCULL_IOCQQUANTUM arg2
        (scull_ioctl h k1 c1 h.SCULL_IOCSQUANTUM arg1 d).dev).ret = v := by
  rw [scull_ioctl_validated h k1 c1 _ arg1 d hset, switch_SQUANTUM h k1 c1 arg1 d hd,
    scull_ioctl_validated h k2 c2 _ arg2 _ hquery, switch_QQUANTUM h k2 c2 arg2 _ hd,
    get_user_of_value k1 v hv hbuf]

/-- Witness of C7 amended: SET of `-5`, then QUERY with the argument 0. -/
theorem set_then_query_witness :
    distinct_labels sample_h ∧ is_int (-5) ∧
      validated sample_h (sample_k (some (-5))) sample_h.SCULL_IOCSQUANTUM 4096 ∧
      validated sample_h (sample_k none) sample_h.SCULL_IOCQQUANTUM 0 ∧
      (scull_ioctl sample_h (sample_k none) (sample_task 11 10) sample_h.SCULL_IOCQQUANTUM 0
          (scull_ioctl sample_h (sample_k (some (-5))) (sample_task 10 10)
            sample_h.SCULL_IOCSQUANTUM 4096 (loaded 4000)).dev).ret = -5 :=
  ⟨by decide, by decide, by decide, by decide,
    set_then_query sample_h (sample_k (some (-5))) (sample_k none) (sample_task 10 10)
      (sample_task 11 10) 4096 0 (loaded 4000) (-5) (by decide) (by decide) (by decide) rfl
      (by decide)⟩

/-- C8. For every prior quantum and every int `new`, an EXCHANGE command whose
buffer is accessible and holds `new`, both copies succeeding, returns 0, leaves
the prior quantum in the caller's buffer and `new` in the quantum, and leaves
the task list unchanged. -/
theorem exchange_contract (h : scull_h) (k : Kernel) (current : task_struct)
    (arg : Nat) (d : Device) (new : Int)
    (hd : distinct_labels h) (hnew : is_int new)
    (hv : validated h k h.SCULL_IOCXQUANTUM arg) (hbuf : k.user_value = some new)
    (hput : k.put_ok = true) :
    (scull_ioctl h k current h.SCULL_IOCXQUANTUM arg d).ret = 0 ∧
      (scull_ioctl h k current h.SCULL_IOCXQUANTUM arg d).user_int = some d.scull_quantum ∧
      (scull_ioctl h k current h.SCULL_IOCXQUANTUM arg d).dev.scull_quantum = new ∧
      (scull_ioctl h k current h.SCULL_IOCXQUANTUM arg d).dev.task_list = d.task_list := by
  rw [scull_ioctl_validated h k current _ arg d hv, switch_XQUANTUM h k current arg d hd,
    get_user_of_value k new hnew hbuf, put_user_of_ok k _ hput]
  exact ⟨rfl, rfl, rfl, rfl⟩

/-- Witness of C8: quantum 4000, buffer holding 9, one registered task. -/
theorem exchange_contract_witness :
    distinct_labels sample_h ∧ is_int 9 ∧
      validated sample_h (sample_k (some 9)) sample_h.SCULL_IOCXQUANTUM 4096 ∧
      (scull_ioctl sample_h (sample_k (some 9)) (sample_task 10 10) sample_h.SCULL_IOCXQUANTUM
          4096 { task_list := [{ pid := 10, tgid := 10 }], scull_quantum := 4000 }).user_int =
        some 4000 ∧
      (scull_ioctl sample_h (sample_k (some 9)) (sample_task 10 10) sample_h.SCULL_IOCXQUANTUM
          4096 { task_list := [{ pid := 10, tgid := 10 }], scull_quantum := 4000
            }).dev.scull_quantum = 9 :=
  ⟨by decide, by decide, by decide,
    (exchange_contract sample_h (sample_k (some 9)) (sample_task 10 10) 4096
      { task_list := [{ pid := 10, tgid := 10 }], scull_quantum := 4000 } 9
      (by decide) (by decide) (by decide) rfl rfl).2.1,
    (exchange_contract sample_h (sample_k (some 9)) (sample_task 10 10) 4096
      { task_list := [{ pid := 10, tgid := 10 }], scull_quantum := 4000 } 9
      (by decide) (by decide) (by decide) rfl rfl).2.2.1⟩

/-- C9. For every prior state and every inline argument `new` that passes
validation, SHIFT returns the prior quantum, which is the result of any QUERY
that passes validation in that prior state, and leaves the device (quantum
and task list) in exactly the state in which TELL with the same argument
leaves it. -/
theorem shift_contract (h : scull_h) (ks kt kq : Kernel) (cs ct cq : task_struct)
    (new argq : Nat) (d : Device)
    (hd : distinct_labels h)
    (hs : validated h ks h.SCULL_IOCHQUANTUM new)
    (ht : validated h kt h.SCULL_IOCTQUANTUM new)
    (hq : validated h kq h.SCULL_IOCQQUANTUM argq) :
    (scull_ioctl h ks cs h.SCULL_IOCHQUANTUM new d).ret =
        (scull_ioctl h kq cq h.SCULL_IOCQQUANTUM argq d).ret ∧
      (scull_ioctl h ks cs h.SCULL_IOCHQUANTUM new d).ret = d.scull_quantum ∧
      (scull_ioctl h ks cs h.SCULL_IOCHQUANTUM new d).dev =
        (scull_ioctl h kt ct h.SCULL_IOCTQUANTUM new d).dev := by
  rw [scull_ioctl_validated h ks cs _ new d hs, switch_HQUANTUM h ks cs new d hd,
    scull_ioctl_validated h kt ct _ new d ht, switch_TQUANTUM h kt ct new d hd,
    scull_ioctl_validated h kq cq _ argq d hq, switch_QQUANTUM h kq cq argq d hd]
  exact ⟨rfl, rfl, rfl⟩

/-- Witness of C9: SHIFT, TELL and QUERY on quantum 4000 with the inline
argument 12. -/
theorem shift_contract_witness :
    distinct_labels sample_h ∧
      validated sample_h (sample_k none) sample_h.SCULL_IOCHQUANTUM 12 ∧
      validated sample_h (sample_k none) sample_h.SCULL_IOCTQUANTUM 12 ∧
      validated sample_h (sample_k none) sample_h.SCULL_IOCQQUANTUM 0 ∧
      (scull_ioctl sample_h (sample_k none) (sample_task 10 10) sample_h.SCULL_IOCHQUANTUM 12
          (loaded 4000)).ret = 4000 ∧
      (scull_ioctl sample_h (sample_k none) (sample_task 10 10) sample_h.SCULL_IOCHQUANTUM 12
          (loaded 4000)).dev =
        (scull_ioctl sample_h (sample_k none) (sample_task 10 10) sample_h.SCULL_IOCTQUANTUM 12
          (loaded 4000)).dev :=
  ⟨by decide, by decide, by decide, by decide,
    (shift_contract sample_h (sample_k none) (sample_k none) (sample_k none)
      (sample_task 10 10) (sample_task 10 10) (sample_task 10 10) 12 0 (loaded 4000)
      (by decide) (by decide) (by decide) (by decide)).2.1,
    (shift_contract sample_h (sample_k none) (sample_k none) (sample_k none)
      (sample_task 10 10) (sample_task 10 10) (sample_task 10 10) 12 0 (loaded 4000)
      (by decide) (by decide) (by decide) (by decide)).2.2⟩

/-- C10. For an INTROSPECT command that passes validation, every caller and
every prior state: the quantum is unchanged; if `copy_to_user` copies
everything, the caller's buffer holds a `task_info` with the caller's pid and
tgid, a task list that had the caller is unchanged, and with a successful
allocation the task list has the caller afterwards, appended at the end when
it was absent; if `copy_to_user` leaves bytes uncopied, the task list is
unchanged. -/
theorem introspect_registers (h : scull_h) (k : Kernel) (current : task_struct)
    (arg : Nat) (d : Device)
    (hv : validated h k h.SCULL_IOCIQUANTUM arg) :
    (scull_ioctl h k current h.SCULL_IOCIQUANTUM arg d).dev.scull_quantum = d.scull_quantum ∧
      (copy_to_user k sizeof_task_info = 0 →
        (∃ info : task_info,
          (scull_ioctl h k current h.SCULL_IOCIQUANTUM arg d).user_info = some info ∧
            info.pid = current.pid ∧ info.tgid = current.tgid) ∧
        (({ pid := current.pid, tgid := current.tgid } : task_node) ∈ d.task_list →
          (scull_ioctl h k current h.SCULL_IOCIQUANTUM arg d).dev.task_list = d.task_list) ∧
        (k.kmalloc = true →
          ({ pid := current.pid, tgid := current.tgid } : task_node) ∈
              (scull_ioctl h k current h.SCULL_IOCIQUANTUM arg d).dev.task_list ∧
            (({ pid := current.pid, tgid := current.tgid } : task_node) ∉ d.task_list →
              (scull_ioctl h k current h.SCULL_IOCIQUANTUM arg d).dev.task_list =
                d.task_list ++ [{ pid := current.pid, tgid := current.tgid }]))) ∧
      (copy_to_user k sizeof_task_info ≠ 0 →
        (scull_ioctl h k current h.SCULL_IOCIQUANTUM arg d).dev.task_list = d.task_list) := by
  rw [scull_ioctl_validated h k current _ arg d hv, switch_IQUANTUM h k current arg d]
  by_cases hc : copy_to_user k sizeof_task_info = 0
  · have hr : to_int (copy_to_user k sizeof_task_info) = 0 := (to_int_copy_eq_zero_iff k).2 hc
    rw [if_pos hr, if_pos hc]
    refine ⟨rfl, fun _ => ⟨⟨_, rfl, rfl, rfl⟩, ?_, ?_⟩, fun hne => absurd hc hne⟩
    · intro hmem
      exact add_task_of_mem _ _ _ _ hmem
    · intro hk
      rw [hk]
      by_cases hmem : ({ pid := current.pid, tgid := current.tgid } : task_node) ∈ d.task_list
      · refine ⟨?_, fun hn => absurd hmem hn⟩
        show _ ∈ add_task true current.pid current.tgid d.task_list
        rw [add_task_of_mem true _ _ _ hmem]
        exact hmem
      · have hEq := add_task_of_not_mem current.pid current.tgid d.task_list hmem
        refine ⟨?_, fun _ => hEq⟩
        show _ ∈ add_task true current.pid current.tgid d.task_list
        rw [hEq]
        simp
  · have hr : ¬ to_int (copy_to_user k sizeof_task_info) = 0 := fun h0 =>
      hc ((to_int_copy_eq_zero_iff k).1 h0)
    rw [if_neg hr]
    exact ⟨rfl, fun h0 => absurd h0 hc, fun _ => rfl⟩

/-- Witness of C10: a complete copy for the caller with pid 10 and tgid 10 on
a task list holding another task. -/
theorem introspect_registers_witness :
    validated sample_h (sample_k none) sample_h.SCULL_IOCIQUANTUM 4096 ∧
      (scull_ioctl sample_h (sample_k none) (sample_task 10 10) sample_h.SCULL_IOCIQUANTUM
          4096 { task_list := [{ pid := 3, tgid := 3 }], scull_quantum := 4000 }).dev.task_list =
        [{ pid := 3, tgid := 3 }] ++ [{ pid := 10, tgid := 10 }] :=
  ⟨by decide,
    ((((introspect_registers sample_h (sample_k none) (sample_task 10 10) 4096
      { task_list := [{ pid := 3, tgid := 3 }], scull_quantum := 4000 } (by decide)).2.1
      (by decide)).2.2 rfl).2 (by decide))⟩

/-- C11, at the failing input. INTROSPECT passes validation, `copy_to_user`
leaves all 40 bytes (or the last 8) uncopied, and `scull_ioctl` returns 40
(or 8), the count of bytes left, not `-EFAULT`. -/
theorem introspect_copy_failure_returns_count :
    validated sample_h { sample_k none with uncopied := 40 } sample_h.SCULL_IOCIQUANTUM 4096 ∧
      (scull_ioctl sample_h { sample_k none with uncopied := 40 } (sample_task 10 10)
          sample_h.SCULL_IOCIQUANTUM 4096 (loaded 4000)).ret = 40 ∧
      (scull_ioctl sample_h { sample_k none with uncopied := 8 } (sample_task 10 10)
          sample_h.SCULL_IOCIQUANTUM 4096 (loaded 4000)).ret = 8 ∧
      (scull_ioctl sample_h { sample_k none with uncopied := 40 } (sample_task 10 10)
          sample_h.SCULL_IOCIQUANTUM 4096 (loaded 4000)).ret ≠ -EFAULT := by
  decide

/-- C12, as stated, fails: with the quantum at 4000, a SET and an EXCHANGE
that pass validation and whose read of the buffer faults return `-EFAULT` and
leave the quantum at 0, not at 4000. -/
theorem failed_read_zeroes_quantum :
    validated sample_h (sample_k none) sample_h.SCULL_IOCSQUANTUM 4096 ∧
      (sample_k none).user_value = none ∧
      scull_ioctl sample_h (sample_k none) (sample_task 10 10)
          sample_h.SCULL_IOCSQUANTUM 4096 (loaded 4000) =
        { ret := -14, dev := { task_list := [], scull_quantum := 0 },
          user_int := none, user_info := none } ∧
      scull_ioctl sample_h (sample_k none) (sample_task 10 10)
          sample_h.SCULL_IOCXQUANTUM 4096 (loaded 4000) =
        { ret := -14, dev := { task_list := [], scull_quantum := 0 },
          user_int := none, user_info := none } ∧
      (scull_ioctl sample_h (sample_k none) (sample_task 10 10)
          sample_h.SCULL_IOCSQUANTUM 4096 (loaded 4000)).dev.scull_quantum ≠ 4000 := by
  decide

/-- C12, amended. For every prior quantum, a SET or EXCHANGE command that
passes validation and whose read of the caller's buffer faults returns
`-EFAULT`, stores nothing in user memory, leaves the task list unchanged and
leaves the quantum at 0, the value the failed `__get_user` leaves in its
destination; so the quantum is as before exactly when it was 0. -/
theorem failed_read_effect (h : scull_h) (k : Kernel) (current : task_struct)
    (arg : Nat) (d : Device) (hd : distinct_labels h) (hbuf : k.user_value = none) :
    (validated h k h.SCULL_IOCSQUANTUM arg →
        scull_ioctl h k current h.SCULL_IOCSQUANTUM arg d =
          { ret := -EFAULT, dev := { d with scull_quantum := 0 },
            user_int := none, user_info := none }) ∧
      (validated h k h.SCULL_IOCXQUANTUM arg →
        scull_ioctl h k current h.SCULL_IOCXQUANTUM arg d =
          { ret := -EFAULT, dev := { d with scull_quantum := 0 },
            user_int := none, user_info := none }) := by
  refine ⟨fun hv => ?_, fun hv => ?_⟩
  · rw [scull_ioctl_validated h k current _ arg d hv, switch_SQUANTUM h k current arg d hd,
      get_user_of_fault k hbuf]
  · rw [scull_ioctl_validated h k current _ arg d hv, switch_XQUANTUM h k current arg d hd,
      get_user_of_fault k hbuf]
    rfl

/-- Witness of C12 amended: a faulting read with the quantum at 0 before. -/
theorem failed_read_effect_witness :
    distinct_labels sample_h ∧ (sample_k none).user_value = none ∧
      validated sample_h (sample_k none) sample_h.SCULL_IOCSQUANTUM 4096 ∧
      scull_ioctl sample_h (sample_k none) (sample_task 10 10)
          sample_h.SCULL_IOCSQUANTUM 4096 (loaded 0) =
        { ret := -EFAULT, dev := { loaded 0 with scull_quantum := 0 },
          user_int := none, user_info := none } :=
  ⟨by decide, rfl, by decide,
    (failed_read_effect sample_h (sample_k none) (sample_task 10 10) 4096 (loaded 0)
      (by decide) rfl).1 (by decide)⟩

/-- C13. For every prior state and every int `new`, an EXCHANGE command that
passes validation, reads `new` from the caller's buffer and fails to write the
prior value back returns `-EFAULT`, a failure result, stores nothing in the
buffer, and the quantum holds `new` afterwards. -/
theorem exchange_mutates_before_copy_out (h : scull_h) (k : Kernel)
    (current : task_struct) (arg : Nat) (d : Device) (new : Int)
    (hd : distinct_labels h) (hnew : is_int new)
    (hv : validated h k h.SCULL_IOCXQUANTUM arg) (hbuf : k.user_value = some new)
    (hput : k.put_ok = false) :
    (scull_ioctl h k current h.SCULL_IOCXQUANTUM arg d).ret = -EFAULT ∧
      (scull_ioctl h k current h.SCULL_IOCXQUANTUM arg d).ret ≠ 0 ∧
      (scull_ioctl h k current h.SCULL_IOCXQUANTUM arg d).user_int = none ∧
      (scull_ioctl h k current h.SCULL_IOCXQUANTUM arg d).dev.scull_quantum = new ∧
      (scull_ioctl h k current h.SCULL_IOCXQUANTUM arg d).dev.task_list = d.task_list := by
  rw [scull_ioctl_validated h k current _ arg d hv, switch_XQUANTUM h k current arg d hd,
    get_user_of_value k new hnew hbuf, put_user_of_fault k _ hput]
  refine ⟨rfl, ?_, rfl, rfl, rfl⟩
  show -EFAULT ≠ 0
  decide

/-- Witness of C13: quantum 4000, buffer holding 9, write back refused. -/
theorem exchange_mutates_before_copy_out_witness :
    distinct_labels sample_h ∧ is_int 9 ∧
      validated sample_h { sample_k (some 9) with put_ok := false }
        sample_h.SCULL_IOCXQUANTUM 4096 ∧
      (scull_ioctl sample_h { sample_k (some 9) with put_ok := false } (sample_task 10 10)
          sample_h.SCULL_IOCXQUANTUM 4096 (loaded 4000)).ret = -EFAULT ∧
      (scull_ioctl sample_h { sample_k (some 9) with put_ok := false } (sample_task 10 10)
          sample_h.SCULL_IOCXQUANTUM 4096 (loaded 4000)).dev.scull_quantum = 9 :=
  ⟨by decide, by decide, by decide,
    (exchange_mutates_before_copy_out sample_h { sample_k (some 9) with put_ok := false }
      (sample_task 10 10) 4096 (loaded 4000) 9 (by decide) (by decide) (by decide)
      rfl rfl).1,
    (exchange_mutates_before_copy_out sample_h { sample_k (some 9) with put_ok := false }
      (sample_task 10 10) 4096 (loaded 4000) 9 (by decide) (by decide) (by decide)
      rfl rfl).2.2.2.1⟩

/-- C14, as stated, fails: TELL with the inline argument `2^64 - 1`, which
`access_ok` refuses, returns `-EFAULT` and leaves the quantum at 4000; RESET,
QUERY and SHIFT with that argument return `-EFAULT` as well. -/
theorem tell_refused_by_access_check :
    (sample_k none).access_ok 18446744073709551615
        (_IOC_SIZE sample_h.SCULL_IOCTQUANTUM) = false ∧
      scull_ioctl sample_h (sample_k none) (sample_task 10 10)
          sample_h.SCULL_IOCTQUANTUM 18446744073709551615 (loaded 4000) =
        { ret := -14, dev := { task_list := [], scull_quantum := 4000 },
          user_int := none, user_info := none } ∧
      (scull_ioctl sample_h (sample_k none) (sample_task 10 10)
          sample_h.SCULL_IOCRESET 18446744073709551615 (loaded 7)).ret = -EFAULT ∧
      (scull_ioctl sample_h (sample_k none) (sample_task 10 10)
          sample_h.SCULL_IOCQQUANTUM 18446744073709551615 (loaded 7)).ret = -EFAULT ∧
      (scull_ioctl sample_h (sample_k none) (sample_task 10 10)
          sample_h.SCULL_IOCHQUANTUM 18446744073709551615 (loaded 7)).ret = -EFAULT := by
  decide

/-- C14, amended. The scalar commands go through `access_ok` like the others:
for every inline argument that passes validation and every prior state, RESET,
TELL, QUERY and SHIFT take their effect instead of failing; in particular TELL
returns 0 and sets the quantum to the argument converted to `int`, which is
the argument itself below `2^31`. -/
theorem scalar_commands_after_validation (h : scull_h) (k : Kernel)
    (current : task_struct) (arg : Nat) (d : Device) (hd : distinct_labels h) :
    (validated h k h.SCULL_IOCRESET arg →
        scull_ioctl h k current h.SCULL_IOCRESET arg d =
          { ret := 0, dev := { d with scull_quantum := h.SCULL_QUANTUM },
            user_int := none, user_info := none }) ∧
      (validated h k h.SCULL_IOCTQUANTUM arg →
        scull_ioctl h k current h.SCULL_IOCTQUANTUM arg d =
            { ret := 0, dev := { d with scull_quantum := to_int arg },
              user_int := none, user_info := none } ∧
          (arg < 2147483648 →
            (scull_ioctl h k current h.SCULL_IOCTQUANTUM arg d).dev.scull_quantum = arg)) ∧
      (validated h k h.SCULL_IOCQQUANTUM arg →
        scull_ioctl h k current h.SCULL_IOCQQUANTUM arg d =
          { ret := d.scull_quantum, dev := d, user_int := none, user_info := none }) ∧
      (validated h k h.SCULL_IOCHQUANTUM arg →
        scull_ioctl h k current h.SCULL_IOCHQUANTUM arg d =
          { ret := d.scull_quantum, dev := { d with scull_quantum := to_int arg },
            user_int := none, user_info := none }) := by
  refine ⟨fun hv => ?_, fun hv => ?_, fun hv => ?_, fun hv => ?_⟩
  · rw [scull_ioctl_validated h k current _ arg d hv, switch_RESET h k current arg d hd]
  · rw [scull_ioctl_validated h k current _ arg d hv, switch_TQUANTUM h k current arg d hd]
    refine ⟨rfl, fun hlt => ?_⟩
    show to_int (arg : Int) = (arg : Int)
    apply to_int_of_is_int
    unfold is_int
    omega
  · rw [scull_ioctl_validated h k current _ arg d hv, switch_QQUANTUM h k current arg d hd]
  · rw [scull_ioctl_validated h k current _ arg d hv, switch_HQUANTUM h k current arg d hd]

/-- Witness of C14 amended: TELL with the inline argument 12. -/
theorem scalar_commands_after_validation_witness :
    distinct_labels sample_h ∧
      validated sample_h (sample_k none) sample_h.SCULL_IOCTQUANTUM 12 ∧
      scull_ioctl sample_h (sample_k none) (sample_task 10 10)
          sample_h.SCULL_IOCTQUANTUM 12 (loaded 4000) =
        { ret := 0, dev := { loaded 4000 with scull_quantum := to_int ((12 : Nat) : Int) },
          user_int := none, user_info := none } ∧
      (scull_ioctl sample_h (sample_k none) (sample_task 10 10)
          sample_h.SCULL_IOCTQUANTUM 12 (loaded 4000)).dev.scull_quantum = ((12 : Nat) : Int) :=
  ⟨by decide, by decide,
    ((scalar_commands_after_validation sample_h (sample_k none) (sample_task 10 10) 12
      (loaded 4000) (by decide)).2.1 (by decide)).1,
    ((scalar_commands_after_validation sample_h (sample_k none) (sample_task 10 10) 12
      (loaded 4000) (by decide)).2.1 (by decide)).2 (by decide)⟩

/-- C15. For every caller and every prior state `scull_open` returns 0 and
leaves the quantum alone, whatever `kmalloc` answers; when `kmalloc` fails the
task list is unchanged, and when it succeeds the task list has the caller's
pid and tgid afterwards.  Likewise an INTROSPECT that passes validation and
copies everything returns 0 whatever `kmalloc` answers, and with a failing
`kmalloc` leaves the task list unchanged. -/
theorem open_never_fails (h : scull_h) (k : Kernel) (current : task_struct)
    (arg : Nat) (d : Device) :
    (scull_open k current d).1 = 0 ∧
      (scull_open k current d).2.scull_quantum = d.scull_quantum ∧
      (k.kmalloc = false → (scull_open k current d).2.task_list = d.task_list) ∧
      (k.kmalloc = true →
        ({ pid := current.pid, tgid := current.tgid } : task_node) ∈
          (scull_open k current d).2.task_list) ∧
      (validated h k h.SCULL_IOCIQUANTUM arg → copy_to_user k sizeof_task_info = 0 →
        (scull_ioctl h k current h.SCULL_IOCIQUANTUM arg d).ret = 0 ∧
          (k.kmalloc = false →
            (scull_ioctl h k current h.SCULL_IOCIQUANTUM arg d).dev.task_list =
              d.task_list)) := by
  refine ⟨rfl, rfl, fun hk => ?_, fun hk => ?_, fun hv hc => ?_⟩
  · show add_task k.kmalloc current.pid current.tgid d.task_list = d.task_list
    rw [hk]; exact add_task_no_memory _ _ _
  · show _ ∈ add_task k.kmalloc current.pid current.tgid d.task_list
    rw [hk]
    by_cases hmem : ({ pid := current.pid, tgid := current.tgid } : task_node) ∈ d.task_list
    · rw [add_task_of_mem true _ _ _ hmem]; exact hmem
    · rw [add_task_of_not_mem _ _ _ hmem]; simp
  · have hr : to_int (copy_to_user k sizeof_task_info) = 0 := (to_int_copy_eq_zero_iff k).2 hc
    rw [scull_ioctl_validated h k current _ arg d hv, switch_IQUANTUM h k current arg d,
      if_pos hr]
    refine ⟨hr, fun hk => ?_⟩
    show add_task k.kmalloc current.pid current.tgid d.task_list = d.task_list
    rw [hk]; exact add_task_no_memory _ _ _

/-- Witness of C15: an open and a complete INTROSPECT copy under a failing
`kmalloc`. -/
theorem open_never_fails_witness :
    ({ sample_k none with kmalloc := false } : Kernel).kmalloc = false ∧
      validated sample_h { sample_k none with kmalloc := false }
        sample_h.SCULL_IOCIQUANTUM 4096 ∧
      (scull_open { sample_k none with kmalloc := false } (sample_task 10 10)
          (loaded 4000)).2.task_list = (loaded 4000).task_list ∧
      (scull_ioctl sample_h { sample_k none with kmalloc := false } (sample_task 10 10)
          sample_h.SCULL_IOCIQUANTUM 4096 (loaded 4000)).ret = 0 :=
  ⟨rfl, by decide,
    (open_never_fails sample_h { sample_k none with kmalloc := false } (sample_task 10 10)
      4096 (loaded 4000)).2.2.1 rfl,
    ((open_never_fails sample_h { sample_k none with kmalloc := false } (sample_task 10 10)
      4096 (loaded 4000)).2.2.2.2 (by decide) (by decide)).1⟩

/-- C16. For every call other than the teardown (an open, a release, an ioctl
with any command, argument and kernel answers) the task list before is a
prefix of the task list after, which has at most one record more; a release
leaves the task list unchanged, and so does every ioctl whose command is not
the INTROSPECT label, hence RESET, SET, TELL, GET, QUERY, EXCHANGE and SHIFT. -/
theorem registry_grows_monotonically (h : scull_h) (d : Device) :
    (∀ op : Op, op ≠ Op.cleanup_ →
        d.task_list <+: (step h d op).task_list ∧
          (step h d op).task_list.length ≤ d.task_list.length + 1) ∧
      (scull_release d).2.task_list = d.task_list ∧
      (∀ (k : Kernel) (current : task_struct) (cmd arg : Nat),
        cmd ≠ h.SCULL_IOCIQUANTUM →
          (scull_ioctl h k current cmd arg d).dev.task_list = d.task_list) ∧
      (distinct_labels h →
        ∀ (k : Kernel) (current : task_struct) (cmd arg : Nat), cmd ∈ quantum_labels h →
          (scull_ioctl h k current cmd arg d).dev.task_list = d.task_list) := by
  refine ⟨fun op hop => ?_, rfl, fun k current cmd arg hne => ?_,
    fun hd k current cmd arg hq => ?_⟩
  · cases op with
    | open_ k current => exact add_task_prefix _ _ _ _
    | ioctl_ k current cmd arg =>
      rcases scull_ioctl_task_list h k current cmd arg d with hEq | hEq
      · simp only [step, hEq]
        exact ⟨List.prefix_refl _, Nat.le_succ _⟩
      · simp only [step, hEq]
        exact add_task_prefix _ _ _ _
    | release_ => exact ⟨List.prefix_refl _, Nat.le_succ _⟩
    | cleanup_ => exact absurd rfl hop
  · exact scull_ioctl_task_list_of_ne h k current cmd arg d hne
  · exact scull_ioctl_task_list_of_ne h k current cmd arg d (quantum_label_ne h hd cmd hq)

/-- Witness of C16: an open by a new caller on a one-record list, and an
EXCHANGE on that list. -/
theorem registry_grows_monotonically_witness :
    Op.open_ (sample_k none) (sample_task 10 10) ≠ Op.cleanup_ ∧
      ([{ pid := 3, tgid := 3 }] : List task_node) <+:
        (step sample_h { task_list := [{ pid := 3, tgid := 3 }], scull_quantum := 4000 }
          (Op.open_ (sample_k none) (sample_task 10 10))).task_list ∧
      distinct_labels sample_h ∧
      sample_h.SCULL_IOCXQUANTUM ∈ quantum_labels sample_h ∧
      (scull_ioctl sample_h (sample_k (some 9)) (sample_task 10 10)
          sample_h.SCULL_IOCXQUANTUM 4096
          { task_list := [{ pid := 3, tgid := 3 }], scull_quantum := 4000 }).dev.task_list =
        [{ pid := 3, tgid := 3 }] :=
  ⟨fun hEq => Op.noConfusion hEq,
    ((registry_grows_monotonically sample_h
      { task_list := [{ pid := 3, tgid := 3 }], scull_quantum := 4000 }).1
      (Op.open_ (sample_k none) (sample_task 10 10)) (fun hEq => Op.noConfusion hEq)).1,
    by decide, by decide,
    (registry_grows_monotonically sample_h
      { task_list := [{ pid := 3, tgid := 3 }], scull_quantum := 4000 }).2.2.2 (by decide)
      (sample_k (some 9)) (sample_task 10 10) sample_h.SCULL_IOCXQUANTUM 4096 (by decide)⟩

/-- C17, at the failing input. From the loaded device with the default quantum
4000, a SET whose buffer holds `-5` (or a TELL of `2^32 - 5`) leaves the
quantum at `-5`, and the QUERY that follows returns `-5`, a negative result. -/
theorem quantum_negative_after_set :
    (run sample_h (loaded sample_h.SCULL_QUANTUM)
        [Op.ioctl_ (sample_k (some (-5))) (sample_task 10 10)
          sample_h.SCULL_IOCSQUANTUM 4096]).scull_quantum = -5 ∧
      (run sample_h (loaded sample_h.SCULL_QUANTUM)
        [Op.ioctl_ (sample_k none) (sample_task 10 10)
          sample_h.SCULL_IOCTQUANTUM 4294967291]).scull_quantum = -5 ∧
      (scull_ioctl sample_h (sample_k none) (sample_task 10 10) sample_h.SCULL_IOCQQUANTUM 0
        (run sample_h (loaded sample_h.SCULL_QUANTUM)
          [Op.ioctl_ (sample_k (some (-5))) (sample_task 10 10)
            sample_h.SCULL_IOCSQUANTUM 4096])).ret = -5 ∧
      (scull_ioctl sample_h (sample_k none) (sample_task 10 10) sample_h.SCULL_IOCQQUANTUM 0
        (run sample_h (loaded sample_h.SCULL_QUANTUM)
          [Op.ioctl_ (sample_k (some (-5))) (sample_task 10 10)
            sample_h.SCULL_IOCSQUANTUM 4096])).ret < 0 := by
  decide

/-- C18, as stated, fails: a RESET issued with the argument `2^64 - 1`, which
`access_ok` refuses, returns `-EFAULT` and leaves the quantum at 7, not at the
default 4000. -/
theorem reset_refused_by_access_check :
    scull_ioctl sample_h (sample_k none) (sample_task 10 10)
        sample_h.SCULL_IOCRESET 18446744073709551615 (loaded 7) =
        { ret := -14, dev := { task_list := [], scull_quantum := 7 },
          user_int := none, user_info := none } ∧
      (scull_ioctl sample_h (sample_k none) (sample_task 10 10)
        sample_h.SCULL_IOCRESET 18446744073709551615 (loaded 7)).dev.scull_quantum ≠
        sample_h.SCULL_QUANTUM := by
  decide

/-- C18, amended. For every prior quantum and every task list, a RESET command
whose argument passes the access check of the dispatcher returns 0, sets the
quantum to `SCULL_QUANTUM` and leaves the task list unchanged. -/
theorem reset_contract (h : scull_h) (k : Kernel) (current : task_struct)
    (arg : Nat) (d : Device) (hd : distinct_labels h)
    (hv : validated h k h.SCULL_IOCRESET arg) :
    (scull_ioctl h k current h.SCULL_IOCRESET arg d).ret = 0 ∧
      (scull_ioctl h k current h.SCULL_IOCRESET arg d).dev.scull_quantum = h.SCULL_QUANTUM ∧
      (scull_ioctl h k current h.SCULL_IOCRESET arg d).dev.task_list = d.task_list := by
  rw [scull_ioctl_validated h k current _ arg d hv, switch_RESET h k current arg d hd]
  exact ⟨rfl, rfl, rfl⟩

/-- Witness of C18 amended: RESET with the argument 0 on quantum 7. -/
theorem reset_contract_witness :
    distinct_labels sample_h ∧
      validated sample_h (sample_k none) sample_h.SCULL_IOCRESET 0 ∧
      (scull_ioctl sample_h (sample_k none) (sample_task 10 10) sample_h.SCULL_IOCRESET 0
        { task_list := [{ pid := 3, tgid := 3 }], scull_quantum := 7 }).dev.scull_quantum =
        sample_h.SCULL_QUANTUM :=
  ⟨by decide, by decide,
    (reset_contract sample_h (sample_k none) (sample_task 10 10) 0
      { task_list := [{ pid := 3, tgid := 3 }], scull_quantum := 7 }
      (by decide) (by decide)).2.1⟩

/-- C19, as stated, fails: with the letter `Q` (and likewise `H`), an open and
a close that succeed and an `ioctl` that fails with `-1`, `main` returns
`EXIT_SUCCESS`. -/
theorem query_failure_exits_with_success :
    main (sample_run (-1)) 'Q' = Ending.returned EXIT_SUCCESS ∧
      main (sample_run (-1)) 'H' = Ending.returned EXIT_SUCCESS := by
  decide

/-- C19, amended. For the letters `i`, `R`, `S`, `T`, `G` and `X` and every
outcome of the open, ioctl and close calls, `main` returns `EXIT_FAILURE` if
the open fails, the `ioctl` returns a nonzero result or the close fails, and
`EXIT_SUCCESS` otherwise; for `Q` and `H` it returns `EXIT_FAILURE` if the
open or the close fails and `EXIT_SUCCESS` otherwise, whatever the `ioctl`
returns. -/
theorem program_exit_code (s : System) (cmd : Char) :
    (cmd ∈ ['i', 'R', 'S', 'T', 'G', 'X'] →
        main s cmd = Ending.returned
          (if s.open_ret < 0 ∨ s.ioctl_ret ≠ 0 ∨ s.close_ret ≠ 0 then EXIT_FAILURE
            else EXIT_SUCCESS)) ∧
      (cmd ∈ ['Q', 'H'] →
        main s cmd = Ending.returned
          (if s.open_ret < 0 ∨ s.close_ret ≠ 0 then EXIT_FAILURE else EXIT_SUCCESS)) := by
  constructor
  · intro hc
    simp only [List.mem_cons, List.mem_singleton, List.not_mem_nil, or_false] at hc
    by_cases ho : s.open_ret < 0
    · simp [main, ho]
    · by_cases hcl : s.close_ret = 0
      · by_cases hi : s.ioctl_ret = 0
        · rcases hc with rfl | rfl | rfl | rfl | rfl | rfl <;>
            simp [main, do_op, ho, hcl, hi]
        · rcases hc with rfl | rfl | rfl | rfl | rfl | rfl <;>
            simp [main, do_op, ho, hcl, hi]
      · rcases hc with rfl | rfl | rfl | rfl | rfl | rfl <;>
          simp [main, do_op, ho, hcl]
  · intro hc
    simp only [List.mem_cons, List.mem_singleton, List.not_mem_nil, or_false] at hc
    by_cases ho : s.open_ret < 0
    · simp [main, ho]
    · by_cases hcl : s.close_ret = 0
      · rcases hc with rfl | rfl <;> simp [main, do_op, ho, hcl]
      · rcases hc with rfl | rfl <;> simp [main, do_op, ho, hcl]

/-- Witness of C19 amended: the letter `S` with a failing `ioctl`. -/
theorem program_exit_code_witness :
    'S' ∈ ['i', 'R', 'S', 'T', 'G', 'X'] ∧
      main (sample_run (-1)) 'S' = Ending.returned EXIT_FAILURE :=
  ⟨by decide,
    ((program_exit_code (sample_run (-1)) 'S').1 (by decide)).trans (by decide)⟩

/-- C20, as stated, fails: the code `0x6b01` (tag `k`, number 1, no size) passes
the family check, the range check and the access check, equals none of the
eight case labels, and the `switch` runs into `default`, returning `-ENOTTY`. -/
theorem default_case_reached :
    validated sample_h (sample_k none) 27393 4096 ∧
      27393 ∉ case_labels sample_h ∧
      scull_switch sample_h (sample_k none) (sample_task 10 10) 27393 4096 (loaded 4000) =
        { ret := -ENOTTY, dev := loaded 4000, user_int := none, user_info := none } ∧
      scull_ioctl sample_h (sample_k none) (sample_task 10 10) 27393 4096 (loaded 4000) =
        { ret := -ENOTTY, dev := loaded 4000, user_int := none, user_info := none } := by
  decide

/-- C20, amended. A command code that passes the family check and the range
check need not be one of the eight case labels: whenever the family tag fits
the type field there is such a 32-bit code; and for every such code whose
argument passes the access check the `switch` runs into `default`, so that
`scull_ioctl` returns `-ENOTTY` and leaves the device as it was. -/
theorem default_branch_reachable (h : scull_h) :
    (h.SCULL_IOC_MAGIC < 256 →
        ∃ cmd : Nat, cmd < 4294967296 ∧ _IOC_TYPE cmd = h.SCULL_IOC_MAGIC ∧
          _IOC_NR cmd ≤ h.SCULL_IOC_MAXNR ∧ cmd ∉ case_labels h) ∧
      (∀ (k : Kernel) (current : task_struct) (cmd arg : Nat) (d : Device),
        validated h k cmd arg → cmd ∉ case_labels h →
          scull_ioctl h k current cmd arg d =
            { ret := -ENOTTY, dev := d, user_int := none, user_info := none }) := by
  refine ⟨unlabelled_code_exists h, fun k current cmd arg d hv hno => ?_⟩
  rw [scull_ioctl_validated h k current cmd arg d hv,
    scull_switch_default h k current cmd arg d hno]

/-- Witness of C20 amended: the code `0x6b01` under the sample header. -/
theorem default_branch_reachable_witness :
    sample_h.SCULL_IOC_MAGIC < 256 ∧
      validated sample_h (sample_k none) 27393 4096 ∧ 27393 ∉ case_labels sample_h ∧
      scull_ioctl sample_h (sample_k none) (sample_task 10 10) 27393 4096 (loaded 4000) =
        { ret := -ENOTTY, dev := loaded 4000, user_int := none, user_info := none } :=
  ⟨by decide, by decide, by decide,
    (default_branch_reachable sample_h).2 (sample_k none) (sample_task 10 10) 27393 4096
      (loaded 4000) (by decide) (by decide)⟩

end Scull
